import Mathlib

set_option autoImplicit false
set_option linter.unusedVariables false

/-!
Verification development for the patient-outreach live-agent repository.

The Python sources (`app/media_bridge.py`, `app/voice_live.py`,
`app/speech_session.py`, `app/state.py` and the `app2` variants) are
shallowly embedded as pure Lean functions over explicit state records:

* asynchronous websocket sends become lists of output messages;
* reads of the monotonic clock (`loop.time()`, `time.time()`) become
  explicit rational-number arguments;
* calls into the external C `audioop` module (`rms`, `ratecv`) become
  function-valued fields of the configuration record, since they are
  deterministic pure functions of their inputs;
* Python exceptions that escape a function are modelled with `Except`.

Machine integers do not overflow in any of the embedded code paths
(Python integers are unbounded), so counters are `ℕ`/`ℤ` and wall-clock
milliseconds are `ℚ`.
-/

namespace PatientOutreach

/-- A PCM byte string (`bytes` in Python), as a list of byte values. -/
abbrev Frame := List ℕ

/-- Python `int(x)` on a non-negative/negative rational: truncation toward
zero. -/
def pyInt (q : ℚ) : ℤ :=
  if 0 ≤ q then ⌊q⌋ else ⌈q⌉

/-- `round(x, 3)` in Python: round-half-to-even at three decimal places
(idealized decimal semantics of the CPython builtin `round`). -/
def pyRoundHalfEven (q : ℚ) : ℤ :=
  let f := ⌊q⌋
  let r := q - (f : ℚ)
  if r < 1/2 then f
  else if 1/2 < r then f + 1
  else if f % 2 = 0 then f else f + 1

/-- `round(x, 3)`. -/
def pyRound3 (q : ℚ) : ℚ :=
  (pyRoundHalfEven (q * 1000) : ℚ) / 1000

/-- The condition `20.0 * math.log10(max(rms, 1) / approx_noise) >= d`
from `voice_live.py`, for a noise baseline `approx_noise ≥ 1` and an
integer decibel threshold `d` (`VL_BARGE_IN_MIN_SNR_DB` is parsed with
`int`).  Since `log10` is monotone, the float condition is equivalent to
`max(rms,1)^20 ≥ 10^d · approx_noise^20`, which is exact integer
arithmetic. -/
def snrDbGe (rms approx_noise : ℤ) (d : ℕ) : Bool :=
  10 ^ d * approx_noise ^ 20 ≤ (max rms 1) ^ 20

/-! ### `/app2/state.py` — the minimal aggregator used by the `/app2` bridge -/

/-- The `media` metrics dictionary of the `/app2` class `AppState`. -/
structure Media2 where
  ws_connected_at : Option ℚ
  inFrames : ℕ
  outFrames : ℕ
  audio_bytes_in : ℕ
  audio_bytes_out : ℕ
  first_in_ts : Option ℚ
  last_in_ts : Option ℚ
  first_out_ts : Option ℚ
  last_out_ts : Option ℚ
deriving DecidableEq

/-- `app2/state.AppState.media_in_audio`. -/
def media_in_audio (frames bytes_len : ℕ) (now : ℚ) (st : Media2) : Media2 :=
  if frames ≤ 0 ∧ bytes_len ≤ 0 then st
  else
    let st := if 0 < frames then
        { st with
          first_in_ts := if st.first_in_ts = none then some now else st.first_in_ts,
          last_in_ts := some now,
          inFrames := st.inFrames + frames }
      else st
    if 0 < bytes_len then { st with audio_bytes_in := st.audio_bytes_in + bytes_len } else st

/-- The slice `pcm[off : off + frame_bytes]` for `off = i * frame_bytes`. -/
def pcmSlice (pcm : Frame) (frameBytes i : ℕ) : Frame :=
  (pcm.drop (i * frameBytes)).take frameBytes

/-- `app2/media_bridge._handle_inbound_pcm`: slice `pcm` into whole
`frame_bytes` frames (the remainder is discarded) and forward each frame,
in order, to `speech.send_input_frame` when the session is active and
inbound bridging (`media_enable_voicelive_in`) is on.  The forwarded
frames are returned alongside the updated metrics.  (`send_input_frame`
itself is embedded separately; exceptions it might raise are out of scope
here, matching the `try/except ... break` that merely stops forwarding.) -/
def handleInboundPcm2 (pcm : Frame) (st : Media2) (now : ℚ)
    (speechActive enableIn : Bool) (frameBytes : ℕ) : Media2 × List Frame :=
  if pcm = [] then (st, [])
  else
    let frames := pcm.length / frameBytes
    let st := if frames ≠ 0 then media_in_audio frames pcm.length now st else st
    if ¬ (speechActive ∧ enableIn) then (st, [])
    else (st, (List.range frames).map (pcmSlice pcm frameBytes))

/-! ### `/app/state.py` — the full aggregator -/

/-- The `media` metrics dictionary of the `/app` class `AppState`, with every key
of the literal built in `AppState.__init__`. -/
structure AppMedia where
  upstreamActive : Bool
  media_ws_connected_at : Option ℚ
  inFrames : ℕ
  outFrames : ℕ
  outSendErrors : ℕ
  outJsonFrames : ℕ
  outBinaryFrames : ℕ
  vl_in_started_at : Option ℚ
  textFrames : ℕ
  binaryFrames : ℕ
  first_in_ts : Option ℚ
  first_out_ts : Option ℚ
  last_in_ts : Option ℚ
  last_out_ts : Option ℚ
  schema : Option String
  audio_bytes_in : ℕ
  audio_bytes_out : ℕ
  metadata_received : Bool
  postMetadataTextFrames : ℕ
  audio_peak_max : ℤ
  audio_rms_last : Option ℤ
  audio_rms_avg : Option ℤ
  audio_frames_non_silent : ℕ
  audio_frames_zero : ℕ
  audio_frames_total : ℕ
  audio_first_frame_samples : Option (List ℤ)
  resampler_active : Bool
  frames_resampled : ℕ
  bytes_resampled : ℕ
  pacer_drift_events : ℕ
  commit_errors_total : ℕ
  last_commit_frames : Option ℕ
  last_commit_ms : Option ℤ
  adaptive_min_ms_current : Option ℤ
  last_commit_trigger : Option String
  commit_attempts : ℕ
  commit_ms_buffered_last : Option ℤ
  commit_ms_buffered_current : ℤ
  out_dropped_frames : ℕ
  out_seg_queue_high_water : ℕ
  out_backlog_max : ℕ
  last_commit_audio_bytes : ℕ
  last_commit_speech_frames : ℕ
  last_commit_rms_avg : Option ℤ
  last_commit_rms_peak : ℤ
  dynamic_rms_threshold : Option ℤ
  noise_floor_rms : Option ℤ
  commit_blocks_no_speech : ℕ
  commit_skipped_low_speech : ℕ
deriving DecidableEq

/-- The `media` dictionary exactly as the `/app` method `AppState.__init__`
creates it. -/
def initAppMedia : AppMedia where
  upstreamActive := false
  media_ws_connected_at := none
  inFrames := 0
  outFrames := 0
  outSendErrors := 0
  outJsonFrames := 0
  outBinaryFrames := 0
  vl_in_started_at := none
  textFrames := 0
  binaryFrames := 0
  first_in_ts := none
  first_out_ts := none
  last_in_ts := none
  last_out_ts := none
  schema := none
  audio_bytes_in := 0
  audio_bytes_out := 0
  metadata_received := false
  postMetadataTextFrames := 0
  audio_peak_max := 0
  audio_rms_last := none
  audio_rms_avg := none
  audio_frames_non_silent := 0
  audio_frames_zero := 0
  audio_frames_total := 0
  audio_first_frame_samples := none
  resampler_active := false
  frames_resampled := 0
  bytes_resampled := 0
  pacer_drift_events := 0
  commit_errors_total := 0
  last_commit_frames := none
  last_commit_ms := none
  adaptive_min_ms_current := none
  last_commit_trigger := none
  commit_attempts := 0
  commit_ms_buffered_last := none
  commit_ms_buffered_current := 0
  out_dropped_frames := 0
  out_seg_queue_high_water := 0
  out_backlog_max := 0
  last_commit_audio_bytes := 0
  last_commit_speech_frames := 0
  last_commit_rms_avg := none
  last_commit_rms_peak := 0
  dynamic_rms_threshold := none
  noise_floor_rms := none
  commit_blocks_no_speech := 0
  commit_skipped_low_speech := 0

/-! ### `/app/media_bridge.py` -/

/-- `app/media_bridge._handle_inbound_pcm`.

The `/app` class `AppState` (unlike the `/app2` one) defines **no** `media_in_audio`
method, so the call `app_state.media_in_audio(frames, len(pcm))` on any
non-empty whole-frame batch raises `AttributeError` before the forwarding
loop is reached; the exception is modelled as `Except.error ()`.  On the
non-raising paths the function returns the (unchanged) metrics and the
frames forwarded to `speech.send_input_frame`, in order. -/
def handleInboundPcmApp (pcm : Frame) (st : AppMedia)
    (speechActive enableIn : Bool) (frameBytes : ℕ) :
    Except Unit (AppMedia × List Frame) :=
  if pcm = [] then .ok (st, [])
  else
    let frames := pcm.length / frameBytes
    if frames ≠ 0 then .error ()
    else if ¬ (speechActive ∧ enableIn) then .ok (st, [])
    else .ok (st, (List.range frames).map (pcmSlice pcm frameBytes))

/-- Classification of one inbound **text** message of the `/app` media
websocket loop (`media_bridge.media_websocket`, inner `while True`):

* `malformed` — `json.loads(text)` raised;
* `metadata` — parsed object with `kind == "AudioMetadata"`;
* `audioB64 d` — an audio container variant carrying a base64 string;
  `d = none` when `base64.b64decode` raised, otherwise the decoded PCM;
* `other` — parsed JSON with no recognized audio payload. -/
inductive TextParse
  | malformed
  | metadata
  | audioB64 (decoded : Option Frame)
  | other
deriving DecidableEq

/-- One iteration of the `/app` media websocket receive loop for a text
message.  `Except.ok` means the loop continues with the returned metrics
and forwarded frames; `Except.error` means the iteration raised (which
ends the receive loop).  Note: the `except` handlers for malformed JSON
and for a failed base64 decode execute a bare `continue`; they touch no
counter of any kind. -/
def mediaLoopTextStep (t : TextParse) (st : AppMedia)
    (speechActive enableIn : Bool) (frameBytes : ℕ) :
    Except Unit (AppMedia × List Frame) :=
  match t with
  | .malformed => .ok (st, [])
  | .metadata => .ok (st, [])
  | .audioB64 none => .ok (st, [])
  | .audioB64 (some pcm) => handleInboundPcmApp pcm st speechActive enableIn frameBytes
  | .other => .ok (st, [])

/-! ### Keys ever written into the `/app` dictionary `app_state.media`

`speech_session.SpeechSession.send_input_frame` gates on
`app_state.media.get("started")`.  Every write to the `media` dictionary
in the whole `/app` package happens inside a method of `AppState`
(verified by inspection of all `media[...]` assignment sites), so the set
of keys the dictionary can ever hold is the initial key set plus the keys
written by those methods. -/

/-- The methods of the `/app` class `AppState` that write into `self.media`. -/
inductive AppStateMediaOp
  | media_ws_open
  | media_set_schema
  | media_in_frame
  | media_add_in_frames
  | media_out_frame
  | media_add_in_bytes
  | media_text_frame
  | media_binary_frame
  | media_add_out_bytes
  | media_out_error
  | media_out_json_frame
  | media_out_binary_frame
  | media_resample_add
  | media_out_frame_dropped
  | media_out_backlog
  | media_pacer_drift
  | media_commit_success
  | media_commit_detail
  | media_commit_block
  | media_commit_error
  | media_commit_progress
  | media_set_metadata
  | media_ws_close
  | media_process_audio_frame
  | media_mark_vl_in_started
deriving DecidableEq

/-- The `media` keys each `AppState` method assigns (over-approximating:
conditional assignments are included unconditionally). -/
def mediaKeysWritten : AppStateMediaOp → List String
  | .media_ws_open => ["upstreamActive", "media_ws_connected_at"]
  | .media_set_schema => ["schema"]
  | .media_in_frame => ["inFrames", "first_in_ts", "last_in_ts"]
  | .media_add_in_frames => ["inFrames", "first_in_ts", "last_in_ts"]
  | .media_out_frame => ["outFrames", "first_out_ts", "last_out_ts"]
  | .media_add_in_bytes => ["audio_bytes_in"]
  | .media_text_frame => ["textFrames", "postMetadataTextFrames"]
  | .media_binary_frame => ["binaryFrames"]
  | .media_add_out_bytes => ["audio_bytes_out"]
  | .media_out_error => ["outSendErrors"]
  | .media_out_json_frame => ["outJsonFrames"]
  | .media_out_binary_frame => ["outBinaryFrames"]
  | .media_resample_add => ["resampler_active", "frames_resampled", "bytes_resampled"]
  | .media_out_frame_dropped => ["out_dropped_frames"]
  | .media_out_backlog => ["out_seg_queue_high_water", "out_backlog_max"]
  | .media_pacer_drift => ["pacer_drift_events"]
  | .media_commit_success =>
      ["last_commit_frames", "last_commit_ms", "adaptive_min_ms_current",
       "last_commit_trigger", "commit_attempts", "commit_ms_buffered_last",
       "commit_ms_buffered_current"]
  | .media_commit_detail =>
      ["last_commit_audio_bytes", "last_commit_speech_frames", "last_commit_rms_avg",
       "last_commit_rms_peak", "dynamic_rms_threshold", "noise_floor_rms"]
  | .media_commit_block => ["commit_blocks_no_speech", "commit_skipped_low_speech"]
  | .media_commit_error => ["commit_errors_total", "adaptive_min_ms_current", "commit_attempts"]
  | .media_commit_progress => ["commit_ms_buffered_current"]
  | .media_set_metadata => ["metadata_received"]
  | .media_ws_close => ["upstreamActive"]
  | .media_process_audio_frame =>
      ["audio_frames_total", "audio_frames_zero", "audio_frames_non_silent",
       "audio_peak_max", "audio_rms_last", "audio_rms_avg", "audio_first_frame_samples"]
  | .media_mark_vl_in_started => ["vl_in_started_at"]

/-- The keys of the `media` dictionary literal in `AppState.__init__`. -/
def initMediaKeys : List String :=
  ["upstreamActive", "media_ws_connected_at", "inFrames", "outFrames", "outSendErrors",
   "outJsonFrames", "outBinaryFrames", "vl_in_started_at", "textFrames", "binaryFrames",
   "first_in_ts", "first_out_ts", "last_in_ts", "last_out_ts", "schema",
   "audio_bytes_in", "audio_bytes_out", "metadata_received", "postMetadataTextFrames",
   "audio_peak_max", "audio_rms_last", "audio_rms_avg", "audio_frames_non_silent",
   "audio_frames_zero", "audio_frames_total", "audio_first_frame_samples",
   "resampler_active", "frames_resampled", "bytes_resampled", "pacer_drift_events",
   "commit_errors_total", "last_commit_frames", "last_commit_ms",
   "adaptive_min_ms_current", "last_commit_trigger", "commit_attempts",
   "commit_ms_buffered_last", "commit_ms_buffered_current", "out_dropped_frames",
   "out_seg_queue_high_water", "out_backlog_max", "last_commit_audio_bytes",
   "last_commit_speech_frames", "last_commit_rms_avg", "last_commit_rms_peak",
   "dynamic_rms_threshold", "noise_floor_rms", "commit_blocks_no_speech",
   "commit_skipped_low_speech"]

/-- The keys the `media` dictionary holds after an arbitrary sequence of
`AppState` method calls (a Python dict-write adds the key if absent). -/
def mediaKeysAfter (ops : List AppStateMediaOp) : List String :=
  ops.foldl (fun ks op => ks ++ mediaKeysWritten op) initMediaKeys

/-- Outcome of the `/app` method `SpeechSession.send_input_frame` (the GA-SDK
session wrapper in `speech_session.py`). -/
inductive GAOutcome
  | guardReject
  | noSdkConnection
  | notStarted
  | buffered
deriving DecidableEq

/-- `app/speech_session.SpeechSession.send_input_frame`, modelled at the
moment `await self._session_ready_event.wait()` has returned.  The guard
is `self._active and frame and len(frame) == FRAME_BYTES`.  The value of
`app_state.media.get("started")` is over-approximated as truthy whenever
the key `"started"` is present in the dictionary (so the theorem that the
`buffered` path is unreachable is only strengthened).  `buffered` stands
for the whole tail of the function (upsample, extend `_input_buffer`,
schedule/perform a flush to `input_audio_buffer.append`), which is the
only path by which caller audio reaches the service. -/
def sendInputFrameGA (active : Bool) (frameLen frameBytes : ℕ)
    (sdkConnected : Bool) (mediaKeys : List String) : GAOutcome :=
  if ¬ (active ∧ frameLen ≠ 0 ∧ frameLen = frameBytes) then .guardReject
  else if ¬ sdkConnected then .noSdkConnection
  else if ¬ ("started" ∈ mediaKeys) then .notStarted
  else .buffered

/-! ### `/app/voice_live.py` — the preview `VoiceLiveSession`

The session object is embedded as the record `VLState`; per-session
constants read from `settings`/environment in `__init__` live in `VLCfg`.
Websocket sends become `VLMsg` values; the diagnostic calls into
`app_state` are elided except `media_commit_block`, which is journalled
as a `BlockReason` (claim C4 references it).  Attributes that are only
ever written for logging (`_first_frame_diag_done`,
`_requested_input_rate`, `_requested_output_rate`, `_in_accum_buf`,
`_in_accum_frames`, `_session_updated_monotonic`,
`_no_input_watchdog_started`, `_barge_in_consecutive`,
`_min_commit_total_floor_ms`) are omitted.  The opaque `audioop.ratecv`
resampler state is a `ℕ` token threaded through the abstract `ratecv`
configuration function. -/

/-- Messages the session sends on the Voice Live websocket. -/
inductive VLMsg
  | append (audio : Frame)
  | commit
  | responseCreate
  | sessionUpdate
deriving DecidableEq

/-- The `trigger` strings passed to `VoiceLiveSession._commit_now`. -/
inductive CommitTrigger
  | max_buffer_safety
  | no_speech_timeout
  | silence_after_speech
  | low_speech_escalation
  | barge_in
deriving DecidableEq

/-- Reasons passed to `app_state.media_commit_block`. -/
inductive BlockReason
  | no_speech
  | low_speech
deriving DecidableEq

/-- Per-session constants of `VoiceLiveSession` (read from `settings` and
environment variables in `__init__` and never mutated). -/
structure VLCfg where
  vl_input_min_ms : ℤ
  vl_input_safety_ms : ℤ
  vl_min_speech_frames : ℕ
  vl_bootstrap_min_speech_frames : ℕ
  vl_max_buffer_ms : ℚ
  vl_no_speech_commit_ms : ℤ
  vl_no_speech_low_speech_blocks : ℕ
  vl_silence_commit_ms : ℚ
  vl_commit_min_user_ms : ℤ
  vl_dynamic_rms_offset : ℤ
  vl_dynamic_rms_min : ℤ
  vl_dynamic_rms_max : ℤ
  vl_bootstrap_duration_ms : ℚ
  vl_offset_decay_step : ℤ
  vl_offset_decay_interval_ms : ℚ
  vl_offset_decay_min : ℤ
  vl_barge_in_offset : ℤ
  vl_barge_in_lock_ms : ℚ
  vl_barge_in_min_agent_ms : ℚ
  vl_barge_in_min_user_ms : ℚ
  vl_barge_in_cooldown_ms : ℚ
  vl_barge_in_release_frames : ℕ
  vl_barge_in_relative_factor : ℚ
  vl_barge_in_min_snr_db : ℕ
  vl_barge_in_abs_min_rms : ℤ
  auto_response_on_commit : Bool
  commit_response_instructions : Bool
  enable_greeting : Bool
  source_input_rate : ℤ
  source_frame_ms : ℚ
  seg_frame_bytes : ℕ
  rmsOf : Frame → ℤ
  ratecv : ℤ → ℤ → Frame → ℕ → Frame × ℕ

/-- The mutable attributes of a `VoiceLiveSession`. -/
structure VLState where
  closed : Bool
  wsConnected : Bool
  event_type_count : ℕ
  response_started : Bool
  format_retry_sent : Bool
  input_format_ready : Bool
  waiting_for_format_logged : Bool
  awaiting_commit_ack : Bool
  staged_frames : List Frame
  frames_during_ack : ℕ
  total_frames_during_ack : ℕ
  frames_since_successful_commit : ℕ
  successful_commits : ℕ
  last_successful_commit : Option ℚ
  in_frame_counter : ℕ
  in_frames_since_commit : ℕ
  in_ms_since_commit : ℚ
  accum_started : Option ℚ
  adaptive_min_ms : ℤ
  threshold_frames : ℕ
  frame_ms_in : ℚ
  commit_cooldown_frames : ℕ
  commit_ready : Bool
  last_commit_ms : ℚ
  commit_empty_errors : ℕ
  first_audio : Option ℚ
  first_commit : Option ℚ
  first_commit_logged : Bool
  speech_detected : Bool
  speech_active : Bool
  speech_since_commit : Bool
  no_speech_skip_logged : Bool
  had_speech_since_last_commit : Bool
  silence_after_speech_ms : ℚ
  low_speech_block_count : ℕ
  commit_accum_audio_bytes : ℕ
  commit_accum_speech_frames : ℕ
  commit_accum_rms_sum : ℤ
  commit_accum_rms_count : ℕ
  commit_accum_rms_peak : ℤ
  noise_rms_samples : List ℤ
  current_dynamic_threshold : Option ℤ
  dynamic_rms_enabled : Bool
  bootstrap_active : Bool
  bootstrap_deadline : Option ℚ
  bootstrap_offset : ℤ
  last_decay_check_ms : ℚ
  response_active : Bool
  current_burst_active : Bool
  barge_in_enabled : Bool
  barge_in_frames : ℕ
  barge_in_triggered : Bool
  barge_in_candidate_start_ms : Option ℚ
  barge_in_last_trigger_ms : ℚ
  barge_in_release_counter : ℕ
  agent_burst_start_ms : Option ℚ
  seg_buffer : Frame
  seg_queue : List Frame
  downlink : List Frame
  input_rate : Option ℤ
  assumed_input_rate : ℤ
  assumed_output_rate : ℤ
  model_output_rate : Option ℤ
  target_rate : ℤ
  saw_format_update : Bool
  input_resample_state : ℕ
  resample_state_out : ℕ
deriving DecidableEq

/-- `VoiceLiveSession.active`: websocket present and not closed. -/
def vlActive (s : VLState) : Bool :=
  s.wsConnected && !s.closed

/-- Python `a or b` for integers (first operand wins when non-zero). -/
def pyOrZ (a b : ℤ) : ℤ :=
  if a ≠ 0 then a else b

/-- Python `a or b` where `a` may be `None`. -/
def pyOrOptZ (a : Option ℤ) (b : ℤ) : ℤ :=
  match a with
  | some v => pyOrZ v b
  | none => b

/-- `VoiceLiveSession._recompute_threshold`. -/
def recomputeThreshold (cfg : VLCfg) (s : VLState) (force : Bool) : VLState :=
  let s := if s.frame_ms_in ≤ 0 then { s with frame_ms_in := 20 } else s
  let frames : ℕ :=
    (max 1 ⌈(((s.adaptive_min_ms + cfg.vl_input_safety_ms : ℤ) : ℚ) / s.frame_ms_in)⌉).toNat
  if force ∨ frames ≠ s.threshold_frames then { s with threshold_frames := frames } else s

/-- `VoiceLiveSession._commit_now`: the centralized commit helper.
Returns the updated state, the websocket messages sent, and the reason
passed to `app_state.media_commit_block` (if any). -/
def commitNow (cfg : VLCfg) (s : VLState) (trigger : CommitTrigger) (now : ℚ) :
    VLState × List VLMsg × Option BlockReason :=
  if s.awaiting_commit_ack ∨ 0 < s.commit_cooldown_frames then (s, [], none)
  else if s.commit_accum_speech_frames = 0 ∧ trigger ≠ .max_buffer_safety ∧
      trigger ≠ .no_speech_timeout ∧ trigger ≠ .low_speech_escalation then
    (s, [], some .no_speech)
  else
    let s := { s with
      last_commit_ms := now,
      awaiting_commit_ack := true,
      frames_during_ack := 0,
      in_frames_since_commit := 0,
      in_ms_since_commit := 0,
      accum_started := none,
      speech_detected := false,
      had_speech_since_last_commit := false,
      silence_after_speech_ms := 0,
      commit_accum_audio_bytes := 0,
      commit_accum_speech_frames := 0,
      commit_accum_rms_sum := 0,
      commit_accum_rms_count := 0,
      commit_accum_rms_peak := 0 }
    let s :=
      if s.first_commit = none then
        let s := { s with first_commit := some s.last_commit_ms }
        if s.first_audio ≠ none ∧ ¬ s.first_commit_logged then
          { s with first_commit_logged := true }
        else s
      else s
    (s, [.commit], none)

/-- `target_rate = self._input_rate or self._assumed_input_rate or
self._source_input_rate` in `send_input_audio_frame`. -/
def vlTargetRate (cfg : VLCfg) (s : VLState) : ℤ :=
  pyOrOptZ s.input_rate (pyOrZ s.assumed_input_rate cfg.source_input_rate)

/-- The bytes actually appended (after the optional `audioop.ratecv`
upsample) together with the new input resampler state. -/
def vlSendBytes (cfg : VLCfg) (s : VLState) (pcm : Frame) : Frame × ℕ :=
  let target := vlTargetRate cfg s
  if target ≠ cfg.source_input_rate then
    cfg.ratecv cfg.source_input_rate target pcm s.input_resample_state
  else (pcm, s.input_resample_state)

/-- `effective_rate` in `send_input_audio_frame`. -/
def vlEffectiveRate (cfg : VLCfg) (s : VLState) : ℤ :=
  let target := vlTargetRate cfg s
  if target ≠ cfg.source_input_rate then target
  else if target ≠ 0 then target
  else cfg.source_input_rate

/-- `frame_ms_effective`: duration of the appended bytes computed from
`len(send_bytes) // 2` samples at the effective rate. -/
def vlFrameMsEff (cfg : VLCfg) (s : VLState) (send : Frame) : ℚ :=
  let er := vlEffectiveRate cfg s
  if 0 < er then ((send.length / 2 : ℕ) : ℚ) / (er : ℚ) * 1000 else s.frame_ms_in

/-- The RMS-based voice-activity block of `send_input_audio_frame`
(noise floor, dynamic threshold, speech classification, commit-accumulator
updates).  `sendLen` is `len(send_bytes)`; `rms` is `audioop.rms`
of those bytes (supplied by the caller); `audioop` is taken as present. -/
def vadUpdate (cfg : VLCfg) (s : VLState) (sendLen : ℕ) (rms : ℤ) (now : ℚ) : VLState :=
  if sendLen < 2 then { s with speech_detected := false }
  else
    let s :=
      if s.first_audio = none then
        { s with first_audio := some now,
                 bootstrap_deadline := some (now + cfg.vl_bootstrap_duration_ms) }
      else s
    if s.dynamic_rms_enabled then
      let base_ref : ℤ := pyOrOptZ s.current_dynamic_threshold 500
      let s :=
        if (rms : ℚ) < (base_ref : ℚ) * (3 / 5) then
          let l := s.noise_rms_samples ++ [rms]
          { s with noise_rms_samples := if 50 < l.length then l.drop 1 else l }
        else s
      let noise_floor : Option ℤ :=
        if s.noise_rms_samples = [] then none
        else
          let sorted := s.noise_rms_samples.insertionSort (· ≤ ·)
          some (sorted.getD (sorted.length / 2) 0)
      let bd := s.bootstrap_deadline.getD 0
      let p1 :=
        if s.bootstrap_active ∧ s.bootstrap_deadline ≠ none then
          if now ≤ bd then (s, s.bootstrap_offset)
          else ({ s with bootstrap_active := false }, cfg.vl_dynamic_rms_offset)
        else (s, cfg.vl_dynamic_rms_offset)
      let s := p1.1
      let eff0 := p1.2
      let p2 :=
        if s.bootstrap_active ∧ ¬ s.had_speech_since_last_commit ∧ noise_floor ≠ none then
          if cfg.vl_offset_decay_interval_ms ≤ now - s.last_decay_check_ms then
            let s := { s with last_decay_check_ms := now }
            if cfg.vl_offset_decay_min < eff0 then
              let e := max cfg.vl_offset_decay_min (eff0 - cfg.vl_offset_decay_step)
              ({ s with bootstrap_offset := e }, e)
            else (s, eff0)
          else (s, eff0)
        else (s, eff0)
      let s := p2.1
      let effective_offset := p2.2
      let adjusted_offset :=
        match noise_floor with
        | some nf => if nf ≤ 5 then min effective_offset 80 else effective_offset
        | none => effective_offset
      let dyn0 : ℤ :=
        match noise_floor with
        | some nf => nf + adjusted_offset
        | none => adjusted_offset
      let dyn1 := if dyn0 < cfg.vl_dynamic_rms_min then cfg.vl_dynamic_rms_min else dyn0
      let dyn := if cfg.vl_dynamic_rms_max < dyn1 then cfg.vl_dynamic_rms_max else dyn1
      let speech := dyn ≤ rms
      { s with
        current_dynamic_threshold := some dyn,
        speech_detected := speech,
        commit_accum_audio_bytes := s.commit_accum_audio_bytes + sendLen,
        commit_accum_speech_frames :=
          s.commit_accum_speech_frames + (if speech then 1 else 0),
        commit_accum_rms_sum := s.commit_accum_rms_sum + rms,
        commit_accum_rms_count := s.commit_accum_rms_count + 1,
        commit_accum_rms_peak := max s.commit_accum_rms_peak rms }
    else
      { s with speech_detected := 500 < rms }

/-- Clearing the barge-in candidate (start timestamp, consecutive-frame
counter, hysteresis release counter). -/
def biResetCandidate (s : VLState) : VLState :=
  { s with barge_in_candidate_start_ms := none, barge_in_frames := 0,
           barge_in_release_counter := 0 }

/-- The hard lock window: within `barge_in_lock_ms` of the burst start no
candidate is accumulated and any partial candidate is reset; returns the
state and `pass_lock`. -/
def biLockCheck (cfg : VLCfg) (s : VLState) (agent_elapsed : ℚ) : VLState × Bool :=
  if agent_elapsed < cfg.vl_barge_in_lock_ms then
    (if s.barge_in_candidate_start_ms ≠ none then biResetCandidate s else s, true)
  else (s, false)

/-- Candidate tracking with hysteresis release: `candOk` is the full
candidate criterion of the source (threshold, grace, cooldown, SNR,
absolute floor) and `below_release` the release-threshold test. -/
def biTrack (cfg : VLCfg) (s : VLState) (now : ℚ) (passLock : Bool)
    (candOk : Prop) [Decidable candOk] (below_release : Prop) [Decidable below_release] :
    VLState :=
  if ¬ passLock ∧ candOk then
    match s.barge_in_candidate_start_ms with
    | none => { s with barge_in_candidate_start_ms := some now, barge_in_frames := 1 }
    | some _ => { s with barge_in_frames := s.barge_in_frames + 1 }
  else
    if s.barge_in_candidate_start_ms ≠ none then
      if below_release then
        let s := { s with barge_in_release_counter := s.barge_in_release_counter + 1 }
        if cfg.vl_barge_in_release_frames ≤ s.barge_in_release_counter then
          biResetCandidate s
        else s
      else
        if 0 < s.barge_in_release_counter then
          { s with barge_in_release_counter := s.barge_in_release_counter - 1 }
        else s
    else { s with barge_in_frames := 0 }

/-- The trigger tail of the barge-in block: when `trigger_ready` holds and
no barge-in is already latched, latch the flag, record the trigger time,
silence the agent (response flag, burst flag, outbound queue), optionally
commit immediately, and reset the candidate. -/
def biFire (cfg : VLCfg) (s : VLState) (now : ℚ)
    (trigger_ready : Prop) [Decidable trigger_ready] :
    VLState × List VLMsg × Option BlockReason × Bool :=
  if trigger_ready ∧ ¬ s.barge_in_triggered then
    let s := { s with
      barge_in_triggered := true,
      barge_in_last_trigger_ms := now,
      response_active := false,
      current_burst_active := false,
      seg_queue := [] }
    let q :=
      if max cfg.vl_bootstrap_min_speech_frames cfg.vl_min_speech_frames ≤
          s.commit_accum_speech_frames then
        commitNow cfg s .barge_in now
      else (s, [], none)
    (biResetCandidate q.1, q.2.1, q.2.2, true)
  else (s, [], none, false)

/-- The enhanced barge-in detection block of `send_input_audio_frame`
(source lines 503–605).  `rmsComputed` states whether the local `rms`
variable was bound (i.e. the VAD try-block ran: `len(send_bytes) >= 2`).
Returns the state, the messages of an immediate `barge_in` commit, the
block reason (if that commit was refused), and whether a barge-in fired. -/
def bargeInStep (cfg : VLCfg) (s : VLState) (rms : ℤ) (rmsComputed : Bool) (now : ℚ) :
    VLState × List VLMsg × Option BlockReason × Bool :=
  if ¬ (s.barge_in_enabled ∧ (s.response_active ∨ s.current_burst_active)) then
    (s, [], none, false)
  else if ¬ (rmsComputed ∧ s.current_dynamic_threshold ≠ none) then
    (s, [], none, false)
  else
    let dyn := s.current_dynamic_threshold.getD 0
    let s :=
      if s.agent_burst_start_ms = none then { s with agent_burst_start_ms := some now }
      else s
    let agent_elapsed : ℚ :=
      match s.agent_burst_start_ms with
      | some t => now - t
      | none => 0
    let p := biLockCheck cfg s agent_elapsed
    let s := p.1
    let passLock := p.2
    let approx_noise : ℤ := max 1 (dyn - cfg.vl_dynamic_rms_offset)
    let abs_thresh : ℤ := max 20 (approx_noise + cfg.vl_barge_in_offset)
    let rel_thresh : ℚ := (approx_noise : ℚ) * cfg.vl_barge_in_relative_factor
    let effective_thresh : ℚ := max (abs_thresh : ℚ) rel_thresh
    let snr_ok := snrDbGe rms approx_noise cfg.vl_barge_in_min_snr_db
    let below_release := (rms : ℚ) < effective_thresh * (13 / 20)
    let cooldown_ok := cfg.vl_barge_in_cooldown_ms ≤ now - s.barge_in_last_trigger_ms
    let grace_ok := cfg.vl_barge_in_min_agent_ms ≤ agent_elapsed
    let s := biTrack cfg s now passLock
      (effective_thresh ≤ (rms : ℚ) ∧ grace_ok ∧ cooldown_ok ∧ snr_ok = true ∧
        cfg.vl_barge_in_abs_min_rms ≤ rms) below_release
    let user_ms : ℚ :=
      match s.barge_in_candidate_start_ms with
      | some t => now - t
      | none => 0
    let trigger_ready :=
      s.barge_in_candidate_start_ms ≠ none ∧ cfg.vl_barge_in_min_user_ms ≤ user_ms ∧
      grace_ok ∧ cooldown_ok ∧ snr_ok = true ∧ cfg.vl_barge_in_abs_min_rms ≤ rms
    biFire cfg s now trigger_ready

/-- The buffer clearing of trigger (A) when the max-buffer window has
elapsed with zero speech frames (discard instead of committing silence). -/
def ceSilenceReset (s : VLState) : VLState :=
  { s with in_frames_since_commit := 0, in_ms_since_commit := 0, accum_started := none,
           commit_accum_audio_bytes := 0, commit_accum_speech_frames := 0,
           commit_accum_rms_sum := 0, commit_accum_rms_count := 0,
           commit_accum_rms_peak := 0 }

/-- Trigger (A), max-buffer safety (evaluated first). -/
def ceStageA (cfg : VLCfg) (s : VLState) : VLState × Option CommitTrigger :=
  if 0 < s.in_frames_since_commit ∧ cfg.vl_max_buffer_ms ≤ s.in_ms_since_commit then
    if 0 < s.commit_accum_speech_frames then (s, some .max_buffer_safety)
    else (ceSilenceReset s, none)
  else (s, none)

/-- Trigger (A2), no-speech timeout / starvation safeguard. -/
def ceStageA2 (cfg : VLCfg) (s : VLState) (tr : Option CommitTrigger) : Option CommitTrigger :=
  if tr = none ∧ 0 < cfg.vl_no_speech_commit_ms ∧ 0 < s.in_frames_since_commit ∧
      ((cfg.vl_no_speech_commit_ms : ℚ) ≤ s.in_ms_since_commit) ∧
      (¬ s.had_speech_since_last_commit ∨
        cfg.vl_no_speech_low_speech_blocks ≤ s.low_speech_block_count) then
    some .no_speech_timeout
  else tr

/-- Trigger (B), silence boundary after speech. -/
def ceStageB (cfg : VLCfg) (s : VLState) (tr : Option CommitTrigger) : Option CommitTrigger :=
  if tr = none ∧ s.had_speech_since_last_commit ∧ 0 < s.in_frames_since_commit ∧
      cfg.vl_silence_commit_ms ≤ s.silence_after_speech_ms then
    some .silence_after_speech
  else tr

/-- The minimum speech-frame gate with low-speech escalation. -/
def ceGateMinSpeech (cfg : VLCfg) (s : VLState) (tr : Option CommitTrigger) :
    VLState × Option CommitTrigger × List BlockReason :=
  match tr with
  | some t =>
    if t ≠ .max_buffer_safety ∧ 0 < cfg.vl_min_speech_frames ∧
        s.commit_accum_speech_frames < cfg.vl_min_speech_frames then
      let s := { s with low_speech_block_count := s.low_speech_block_count + 1 }
      if 3 ≤ s.low_speech_block_count ∧ cfg.vl_max_buffer_ms ≤ s.in_ms_since_commit then
        (s, some .low_speech_escalation, [BlockReason.low_speech])
      else (s, none, [BlockReason.low_speech])
    else (s, some t, [])
  | none => (s, none, [])

/-- The minimum accumulated user-speech gate (silence trigger only). -/
def ceGateMinUser (cfg : VLCfg) (s : VLState) (frameMsEff : ℚ) (tr : Option CommitTrigger) :
    VLState × Option CommitTrigger :=
  match tr with
  | some t =>
    if 0 < cfg.vl_commit_min_user_ms ∧ t = CommitTrigger.silence_after_speech ∧
        (s.commit_accum_speech_frames : ℚ) * frameMsEff < (cfg.vl_commit_min_user_ms : ℚ) then
      ({ s with silence_after_speech_ms := 0 }, none)
    else (s, some t)
  | none => (s, none)

/-- The commit-trigger evaluation at the tail of
`send_input_audio_frame` (safety-first reordered logic, source lines
607–716), ending in the call to `_commit_now` when a trigger survives
the gates. -/
def commitEval (cfg : VLCfg) (s : VLState) (frameMsEff : ℚ) (now : ℚ) :
    VLState × List VLMsg × List BlockReason :=
  let pA := ceStageA cfg s
  let tr := ceStageA2 cfg pA.1 pA.2
  let tr := ceStageB cfg pA.1 tr
  let pG := ceGateMinSpeech cfg pA.1 tr
  let pU := ceGateMinUser cfg pG.1 frameMsEff pG.2.1
  match pU.2 with
  | some t =>
    let q := commitNow cfg pU.1 t now
    (q.1, q.2.1, pG.2.2 ++ q.2.2.toList)
  | none => (pU.1, [], pG.2.2)

/-- The bookkeeping updates of `send_input_audio_frame` between the
`append` send and the RMS analysis (frame counters, accumulation clock,
adaptive minimum refresh, threshold recompute, cooldown decrement). -/
def vlInTick (cfg : VLCfg) (s : VLState) (frameMsEff : ℚ) (now : ℚ) : VLState :=
  let s := { s with in_frame_counter := s.in_frame_counter + 1,
                    in_frames_since_commit := s.in_frames_since_commit + 1 }
  let s :=
    if s.awaiting_commit_ack then { s with frames_during_ack := s.frames_during_ack + 1 }
    else { s with frames_since_successful_commit := s.frames_since_successful_commit + 1 }
  let s := if s.accum_started = none then { s with accum_started := some now } else s
  let s := { s with in_ms_since_commit := s.in_ms_since_commit + frameMsEff }
  let s := { s with adaptive_min_ms := max s.adaptive_min_ms cfg.vl_input_min_ms }
  let s := recomputeThreshold cfg s false
  if 0 < s.commit_cooldown_frames then
    { s with commit_cooldown_frames := s.commit_cooldown_frames - 1 }
  else s

/-- The speech/silence progression block that follows the RMS analysis. -/
def vlSpeechProgress (s : VLState) (frameMsEff : ℚ) : VLState :=
  if s.speech_detected then
    { s with had_speech_since_last_commit := true, silence_after_speech_ms := 0,
             low_speech_block_count := 0 }
  else if s.had_speech_since_last_commit ∧ 0 < s.in_frames_since_commit then
    { s with silence_after_speech_ms := s.silence_after_speech_ms + frameMsEff }
  else s

/-- Result of one `send_input_audio_frame` call: the new session state,
websocket messages sent, `media_commit_block` reasons recorded, and
whether a barge-in fired during the call. -/
structure StepOut where
  state : VLState
  msgs : List VLMsg
  blocks : List BlockReason
  bargeFired : Bool
deriving DecidableEq

/-- `VoiceLiveSession.send_input_audio_frame` for one PCM frame, with the
several `loop.time()` reads of the call collapsed into the single instant
`now`.  Notes kept faithful to the source:

* the frame-size check `len(pcm_frame) != self._seg_frame_bytes` inside
  the not-ready branch follows a `return` statement and is therefore dead
  code — no path of this function rejects a frame for its size;
* while awaiting a commit ack the frame is staged locally and nothing is
  sent;
* otherwise the (possibly resampled) bytes are appended, counters and the
  VAD state advance, barge-in is evaluated, and the commit triggers run.

`vlPreBarge` names the state as it stands when the barge-in block is
reached (resampler state stored, intake counters ticked, VAD and speech
accounting updated). -/
def vlPreBarge (cfg : VLCfg) (s : VLState) (pcm : Frame) (now : ℚ) : VLState :=
  let sb := vlSendBytes cfg s pcm
  let send := sb.1
  let frameMsEff := vlFrameMsEff cfg s send
  let s1 := { s with input_resample_state := sb.2 }
  let s2 := vlInTick cfg s1 frameMsEff now
  let rms := cfg.rmsOf send
  let s3 := vadUpdate cfg s2 send.length rms now
  vlSpeechProgress s3 frameMsEff

def sendInputAudioFrame (cfg : VLCfg) (s : VLState) (pcm : Frame) (now : ℚ) : StepOut :=
  if vlActive s = false ∨ pcm = [] then ⟨s, [], [], false⟩
  else if ¬ s.input_format_ready then
    ⟨{ s with waiting_for_format_logged := true }, [], [], false⟩
  else if s.awaiting_commit_ack then
    ⟨{ s with staged_frames := s.staged_frames ++ [pcm],
              frames_during_ack := s.frames_during_ack + 1 }, [], [], false⟩
  else
    let send := (vlSendBytes cfg s pcm).1
    let frameMsEff := vlFrameMsEff cfg s send
    let appended : List VLMsg := [.append send]
    let rms := cfg.rmsOf send
    let rmsComputed := decide (2 ≤ send.length)
    let bi := bargeInStep cfg (vlPreBarge cfg s pcm now) rms rmsComputed now
    let ce := commitEval cfg bi.1 frameMsEff now
    ⟨ce.1, appended ++ bi.2.1 ++ ce.2.1, bi.2.2.1.toList ++ ce.2.2, bi.2.2.2⟩

/-- Voice Live server events consumed by `receive_loop`, restricted to
the protocol event types the session reacts to (the source dispatches on
substrings of the `type` string; these constructors enumerate the wire
event names of the protocol).  `sessionUpdated` carries the numeric
sample rates extractable from the payload (`none` for bare strings like
`"pcm16"`); `responseAudioDelta` carries the extracted audio bytes
(`none` when `_extract_audio_bytes` found none). -/
inductive VLEvent
  | sessionUpdated (outRate inRate : Option ℤ)
  | responseAudioDelta (pcm : Option Frame)
  | responseContentPartAdded
  | responseOutputItemAdded
  | responseAudioDone
  | responseDone
  | committed
  | speechStarted
  | speechStopped
  | errorCommitEmpty
  | errorActiveResponse
  | errorInvalidInputFormat
  | errorOther
deriving DecidableEq

/-- Append with drop-oldest at capacity (an `asyncio.Queue` of size `cap`
where a full queue first discards via `get_nowait`). -/
def boundedPush (cap : ℕ) (q : List Frame) (f : Frame) : List Frame :=
  if cap ≤ q.length then q.drop 1 ++ [f] else q ++ [f]

/-- The `while len(self._seg_buffer) >= frame_size` slicing loop of
`_enqueue_pcm`: whole frames in order plus the remainder.  (For
`frameSize = 0` the Python loop would never terminate; the model returns
the buffer unchanged — the configured value is 640.) -/
def segSlices (frameSize : ℕ) (buf : Frame) : List Frame × Frame :=
  if h : frameSize = 0 ∨ buf.length < frameSize then ([], buf)
  else
    let rest := buf.drop frameSize
    let p := segSlices frameSize rest
    (buf.take frameSize :: p.1, p.2)
termination_by buf.length
decreasing_by
  simp only [List.length_drop]
  push_neg at h
  omega

/-- `VoiceLiveSession._enqueue_pcm`: push into the downlink queue
(capacity 16) and segment into the outbound pacing queue (capacity 64),
dropping oldest on overflow. -/
def enqueuePcm (cfg : VLCfg) (s : VLState) (pcm : Frame) : VLState :=
  if pcm = [] then s
  else
    let s := if ¬ s.current_burst_active then { s with current_burst_active := true } else s
    let s := { s with downlink := boundedPush 16 s.downlink pcm }
    let p := segSlices cfg.seg_frame_bytes (s.seg_buffer ++ pcm)
    { s with seg_buffer := p.2, seg_queue := p.1.foldl (boundedPush 64) s.seg_queue }

/-- Result of handling one server event in `receive_loop`. -/
structure EventOut where
  state : VLState
  msgs : List VLMsg
  blocks : List BlockReason
  bargeFired : Bool
  replayed : List Frame
deriving DecidableEq

/-- The staged-frame flush of the `input_audio_buffer.committed` branch:
each frame of `l` is re-injected through `send_input_audio_frame`, with
messages, block reasons, the barge-in flag and the replay journal
accumulated. -/
def replayFold (cfg : VLCfg) (now : ℚ) (l : List Frame) (acc : EventOut) : EventOut :=
  l.foldl
    (fun acc fr =>
      let out := sendInputAudioFrame cfg acc.state fr now
      ⟨out.state, acc.msgs ++ out.msgs, acc.blocks ++ out.blocks,
       acc.bargeFired || out.bargeFired, acc.replayed ++ [fr]⟩)
    acc

/-- The `session.updated` output-rate update: adopt the advertised output
rate when it parses to a non-zero number (Python `or` fallback to the
assumed rate). -/
def heOutRate (s : VLState) (outR : Option ℤ) : VLState :=
  let out_rate : ℤ := pyOrOptZ outR s.assumed_output_rate
  if out_rate ≠ 0 then { s with model_output_rate := some out_rate } else s

/-- The `session.updated` input-rate update: adopt the advertised input
rate, recompute the commit threshold, and mark the input format ready. -/
def heFormatUpdate (cfg : VLCfg) (s : VLState) (inR : Option ℤ) : VLState :=
  let in_rate : ℤ := pyOrOptZ inR s.assumed_input_rate
  if in_rate ≠ 0 then
    let s1 := { s with input_rate := some in_rate, assumed_input_rate := in_rate,
                       saw_format_update := true, frame_ms_in := cfg.source_frame_ms }
    let s2 := recomputeThreshold cfg s1 true
    { s2 with input_format_ready := true, waiting_for_format_logged := false,
              input_resample_state := 0 }
  else s

/-- One iteration of `VoiceLiveSession.receive_loop` for a decoded server
event (the `on_event` callback and the diagnostic `app_state` calls are
external and elided; the several `loop.time()` reads are the instant
`now`).  `replayed` journals the staged frames re-injected through
`send_input_audio_frame` after a commit acknowledgement. -/
def handleEvent (cfg : VLCfg) (s : VLState) (e : VLEvent) (now : ℚ) : EventOut :=
  let s :=
    if s.event_type_count < 10 then { s with event_type_count := s.event_type_count + 1 }
    else s
  match e with
  | .sessionUpdated outR inR =>
    let s := heFormatUpdate cfg (heOutRate s outR) inR
    if cfg.enable_greeting ∧ ¬ s.response_started then
      ⟨{ s with response_started := true }, [.responseCreate], [], false, []⟩
    else ⟨s, [], [], false, []⟩
  | .responseAudioDelta pcm =>
    let s :=
      match pcm with
      | some p =>
        if p = [] then s
        else
          let rate := pyOrOptZ s.model_output_rate 24000
          let pr :=
            if rate ≠ s.target_rate ∧ s.saw_format_update then
              let q := cfg.ratecv rate s.target_rate p s.resample_state_out
              (q.1, { s with resample_state_out := q.2 })
            else (p, s)
          enqueuePcm cfg pr.2 pr.1
      | none => s
    let s := { s with response_active := true, current_burst_active := true }
    let s :=
      if s.agent_burst_start_ms = none then { s with agent_burst_start_ms := some now }
      else s
    ⟨s, [], [], false, []⟩
  | .responseContentPartAdded =>
    let s := { s with response_active := true, current_burst_active := true }
    let s :=
      if s.agent_burst_start_ms = none then { s with agent_burst_start_ms := some now }
      else s
    ⟨s, [], [], false, []⟩
  | .responseOutputItemAdded =>
    let s := { s with response_active := true, current_burst_active := true }
    let s :=
      if s.agent_burst_start_ms = none then { s with agent_burst_start_ms := some now }
      else s
    ⟨s, [], [], false, []⟩
  | .responseAudioDone =>
    ⟨{ s with current_burst_active := false, response_active := false,
              agent_burst_start_ms := none, barge_in_triggered := false,
              barge_in_candidate_start_ms := none, barge_in_frames := 0,
              barge_in_release_counter := 0 }, [], [], false, []⟩
  | .responseDone =>
    ⟨{ s with current_burst_active := false, response_active := false,
              agent_burst_start_ms := none, barge_in_triggered := false,
              barge_in_candidate_start_ms := none, barge_in_frames := 0,
              barge_in_release_counter := 0 }, [], [], false, []⟩
  | .committed =>
    let s := { s with awaiting_commit_ack := false,
                      successful_commits := s.successful_commits + 1,
                      total_frames_during_ack := s.total_frames_during_ack + s.frames_during_ack }
    let s := { s with frames_during_ack := 0, frames_since_successful_commit := 0,
                      last_successful_commit := some now,
                      speech_since_commit := false, no_speech_skip_logged := false }
    if cfg.auto_response_on_commit ∧ ¬ s.response_active ∧ ¬ s.current_burst_active then
      let msgs0 : List VLMsg := if cfg.commit_response_instructions then [.responseCreate] else []
      let toSend := s.staged_frames
      let s := { s with staged_frames := [] }
      replayFold cfg now toSend ⟨s, msgs0, [], false, []⟩
    else ⟨s, [], [], false, []⟩
  | .speechStarted =>
    ⟨{ s with speech_active := true, speech_since_commit := true,
              no_speech_skip_logged := false }, [], [], false, []⟩
  | .speechStopped =>
    ⟨{ s with speech_active := false, speech_since_commit := false,
              no_speech_skip_logged := false, commit_ready := false }, [], [], false, []⟩
  | .errorCommitEmpty =>
    let s := { s with commit_empty_errors := s.commit_empty_errors + 1,
                      awaiting_commit_ack := false }
    let s := { s with total_frames_during_ack := s.total_frames_during_ack + s.frames_during_ack,
                      frames_during_ack := 0 }
    let increment : ℤ := max (pyInt s.frame_ms_in) 20
    let s := { s with adaptive_min_ms := s.adaptive_min_ms + increment }
    let s := if 300 < s.adaptive_min_ms then { s with adaptive_min_ms := 300 } else s
    let s := recomputeThreshold cfg s true
    let s := { s with commit_ready := false, in_frames_since_commit := 0,
                      in_ms_since_commit := 0, accum_started := none }
    ⟨{ s with commit_cooldown_frames := max s.commit_cooldown_frames 8 }, [], [], false, []⟩
  | .errorActiveResponse =>
    ⟨{ s with response_active := true }, [], [], false, []⟩
  | .errorInvalidInputFormat =>
    if ¬ s.format_retry_sent then
      ⟨{ s with format_retry_sent := true }, [.sessionUpdate], [], false, []⟩
    else ⟨s, [], [], false, []⟩
  | .errorOther => ⟨s, [], [], false, []⟩

/-- Events on whose reception `receive_loop` clears the burst and
barge-in flags (`response.audio.done` / `response.done`). -/
def isCompletionEvent : VLEvent → Bool
  | .responseAudioDone => true
  | .responseDone => true
  | _ => false

/-- An interleaving step of the session: either an inbound PCM frame
into `send_input_audio_frame` or a server event into `receive_loop`. -/
inductive VLOp
  | frame (pcm : Frame) (now : ℚ)
  | event (e : VLEvent) (now : ℚ)

/-- The state after one step. -/
def opNext (cfg : VLCfg) (s : VLState) : VLOp → VLState
  | .frame p n => (sendInputAudioFrame cfg s p n).state
  | .event e n => (handleEvent cfg s e n).state

/-- Whether a barge-in fired during the step. -/
def opFired (cfg : VLCfg) (s : VLState) : VLOp → Bool
  | .frame p n => (sendInputAudioFrame cfg s p n).bargeFired
  | .event e n => (handleEvent cfg s e n).bargeFired

/-- Whether the step is a response-completion event. -/
def opIsCompletion : VLOp → Bool
  | .event e _ => isCompletionEvent e
  | .frame _ _ => false

/-! ### `/app/state.py` — call tracking and `snapshot` -/

/-- A call record dictionary as built by `AppState.begin_call` and
mutated by `end_call` and `_augment_with_duration`. -/
structure CallRec where
  call_id : String
  prompt : String
  started_at : ℚ
  ended_at : Option ℚ
  end_reason : Option String
  duration_sec : Option ℚ
deriving DecidableEq

/-- The Voice Live session dictionary built by `begin_voicelive`. -/
structure VoiceLiveSess where
  session_id : String
  model : String
  voice : String
  started_at : ℚ
  active : Bool
  event_types : List String
  output_hz : Option ℤ
  input_hz : Option ℤ
  ended_at : Option ℚ
  end_reason : Option String
deriving DecidableEq

/-- The top-level attributes of the `/app` class `AppState` (the
`call_prompts` dictionary is an association list with replace-on-insert). -/
structure AppStateRec where
  started_at : ℚ
  last_call_id : Option String
  last_voicelive_session_id : Option String
  last_error : Option String
  call_prompts : List (String × String)
  current_call : Option CallRec
  last_call : Option CallRec
  last_event_at : Option ℚ
  voicelive_session : Option VoiceLiveSess
  media : AppMedia
deriving DecidableEq

/-- `AppState.__init__` at process start time `now`. -/
def initAppState (now : ℚ) : AppStateRec where
  started_at := now
  last_call_id := none
  last_voicelive_session_id := none
  last_error := none
  call_prompts := []
  current_call := none
  last_call := none
  last_event_at := none
  voicelive_session := none
  media := initAppMedia

/-- `AppState.begin_call`. -/
def begin_call (s : AppStateRec) (call_id prompt : String) (now : ℚ) : AppStateRec :=
  { s with
    current_call := some ⟨call_id, prompt, now, none, none, none⟩,
    last_call_id := some call_id,
    call_prompts := (call_id, prompt) :: s.call_prompts.filter (fun p => p.1 ≠ call_id),
    last_event_at := some now }

/-- `AppState.end_call`. -/
def end_call (s : AppStateRec) (call_id : String) (reason : Option String) (now : ℚ) :
    AppStateRec :=
  match s.current_call with
  | some c =>
    if c.call_id = call_id then
      let c := { c with ended_at := some now,
                        end_reason := if reason ≠ none then reason else c.end_reason }
      { s with last_call := some c, current_call := none, last_event_at := some now }
    else s
  | none => s

/-- `AppState._augment_with_duration`: writes `duration_sec` **into the
given call dictionary itself** and returns that same dictionary (`call`
truthiness and `started_at` truthiness follow Python, where `0.0` is
falsy). -/
def augmentWithDuration (now : ℚ) : Option CallRec → Option CallRec
  | none => none
  | some c =>
    if c.started_at ≠ 0 then
      some { c with duration_sec := some (pyRound3 ((c.ended_at.getD now) - c.started_at)) }
    else some c

/-- The sanitized Voice Live view built by `AppState._voicelive_snapshot`
(`none` input produces the bare `{"active": False}` dictionary, modelled
with all optional fields empty). -/
structure VoiceLiveView where
  active : Bool
  session_id : Option String
  model : Option String
  voice : Option String
  output_hz : Option ℤ
  input_hz : Option ℤ
  started_at : Option ℚ
  duration_sec : Option ℚ
  event_types : List String
  end_reason : Option String
deriving DecidableEq

/-- `AppState._voicelive_snapshot` (operates on `dict(...)` copies, so it
does not mutate the aggregator). -/
def voiceliveSnapshot (now : ℚ) : Option VoiceLiveSess → VoiceLiveView
  | none => ⟨false, none, none, none, none, none, none, none, [], none⟩
  | some v =>
    let dur : Option ℚ :=
      if v.started_at ≠ 0 then some (pyRound3 ((v.ended_at.getD now) - v.started_at))
      else none
    ⟨v.active, some v.session_id, some v.model, some v.voice, v.output_hz, v.input_hz,
     some v.started_at, dur, v.event_types, v.end_reason⟩

/-- The JSON view returned by `AppState.snapshot`. -/
structure SnapshotView where
  uptime_sec : ℚ
  last_call_id : Option String
  last_voicelive_session_id : Option String
  last_error : Option String
  call_active : Bool
  call_current : Option CallRec
  call_last : Option CallRec
  last_event_age_sec : Option ℚ
  voicelive : VoiceLiveView
  media : AppMedia
deriving DecidableEq

/-- `AppState.snapshot` at wall-clock `now`.  `dict(self.media)` is a
top-level copy and `_voicelive_snapshot` copies before augmenting, but
`_augment_with_duration` writes `duration_sec` into the aggregator call
dictionaries themselves and the view holds those same dictionaries; the
result is the pair (aggregator state after the call, returned view). -/
def snapshot (s : AppStateRec) (now : ℚ) : AppStateRec × SnapshotView :=
  let cur := augmentWithDuration now s.current_call
  let lst := augmentWithDuration now s.last_call
  let s' := { s with current_call := cur, last_call := lst }
  (s',
   { uptime_sec := pyRound3 (now - s.started_at),
     last_call_id := s.last_call_id,
     last_voicelive_session_id := s.last_voicelive_session_id,
     last_error := s.last_error,
     call_active := s.current_call ≠ none,
     call_current := cur,
     call_last := lst,
     last_event_age_sec := s.last_event_at.map (fun t => pyRound3 (now - t)),
     voicelive := voiceliveSnapshot now s.voicelive_session,
     media := s.media })

/-! ### Concrete fixtures (used by witnesses and counterexamples) -/

/-- `VoiceLiveSession.__init__` with the default configuration (no
environment overrides): adaptive minimum 160 ms + 40 ms safety at 20 ms
frames gives `threshold_frames = 10`; websocket not yet connected. -/
def initVLState : VLState where
  closed := false
  wsConnected := false
  event_type_count := 0
  response_started := false
  format_retry_sent := false
  input_format_ready := false
  waiting_for_format_logged := false
  awaiting_commit_ack := false
  staged_frames := []
  frames_during_ack := 0
  total_frames_during_ack := 0
  frames_since_successful_commit := 0
  successful_commits := 0
  last_successful_commit := none
  in_frame_counter := 0
  in_frames_since_commit := 0
  in_ms_since_commit := 0
  accum_started := none
  adaptive_min_ms := 160
  threshold_frames := 10
  frame_ms_in := 20
  commit_cooldown_frames := 0
  commit_ready := false
  last_commit_ms := 0
  commit_empty_errors := 0
  first_audio := none
  first_commit := none
  first_commit_logged := false
  speech_detected := false
  speech_active := false
  speech_since_commit := false
  no_speech_skip_logged := false
  had_speech_since_last_commit := false
  silence_after_speech_ms := 0
  low_speech_block_count := 0
  commit_accum_audio_bytes := 0
  commit_accum_speech_frames := 0
  commit_accum_rms_sum := 0
  commit_accum_rms_count := 0
  commit_accum_rms_peak := 0
  noise_rms_samples := []
  current_dynamic_threshold := none
  dynamic_rms_enabled := true
  bootstrap_active := true
  bootstrap_deadline := none
  bootstrap_offset := 80
  last_decay_check_ms := 0
  response_active := false
  current_burst_active := false
  barge_in_enabled := true
  barge_in_frames := 0
  barge_in_triggered := false
  barge_in_candidate_start_ms := none
  barge_in_last_trigger_ms := 0
  barge_in_release_counter := 0
  agent_burst_start_ms := none
  seg_buffer := []
  seg_queue := []
  downlink := []
  input_rate := none
  assumed_input_rate := 24000
  assumed_output_rate := 24000
  model_output_rate := none
  target_rate := 16000
  saw_format_update := false
  input_resample_state := 0
  resample_state_out := 0

/-- The default configuration values of `config.Settings` together with a
concrete interpretation of the `audioop` functions: `rms` is the constant
3000 and `ratecv` is the identity (no resampling is exercised because the
fixture states negotiate the source rate). -/
def testCfg : VLCfg where
  vl_input_min_ms := 160
  vl_input_safety_ms := 40
  vl_min_speech_frames := 5
  vl_bootstrap_min_speech_frames := 3
  vl_max_buffer_ms := 2000
  vl_no_speech_commit_ms := 600
  vl_no_speech_low_speech_blocks := 3
  vl_silence_commit_ms := 140
  vl_commit_min_user_ms := 600
  vl_dynamic_rms_offset := 300
  vl_dynamic_rms_min := 40
  vl_dynamic_rms_max := 1600
  vl_bootstrap_duration_ms := 2000
  vl_offset_decay_step := 10
  vl_offset_decay_interval_ms := 200
  vl_offset_decay_min := 40
  vl_barge_in_offset := 40
  vl_barge_in_lock_ms := 1200
  vl_barge_in_min_agent_ms := 800
  vl_barge_in_min_user_ms := 160
  vl_barge_in_cooldown_ms := 1200
  vl_barge_in_release_frames := 6
  vl_barge_in_relative_factor := 13 / 10
  vl_barge_in_min_snr_db := 10
  vl_barge_in_abs_min_rms := 100
  auto_response_on_commit := true
  commit_response_instructions := false
  enable_greeting := false
  source_input_rate := 16000
  source_frame_ms := 20
  seg_frame_bytes := 640
  rmsOf := fun _ => 3000
  ratecv := fun _ _ f st => (f, st)

/-- A connected, format-ready session whose input rate equals the source
rate (no upsampling). -/
def readyVLState : VLState :=
  { initVLState with
    wsConnected := true,
    input_format_ready := true,
    input_rate := some 16000,
    assumed_input_rate := 16000,
    saw_format_update := true }

/-- A session awaiting a commit acknowledgement with one staged frame
while a response is streaming. -/
def c2State : VLState :=
  { readyVLState with
    awaiting_commit_ack := true,
    staged_frames := [[1, 2]],
    response_active := true }

/-- A session awaiting a commit acknowledgement with one staged frame and
no active response. -/
def c2ReplayState : VLState :=
  { readyVLState with
    awaiting_commit_ack := true,
    staged_frames := [[1, 2]] }

/-- A session inside an agent burst that started at `t = 1000` ms, with a
partial barge-in candidate. -/
def c6State : VLState :=
  { readyVLState with
    response_active := true,
    current_burst_active := true,
    agent_burst_start_ms := some 1000,
    current_dynamic_threshold := some 340,
    barge_in_candidate_start_ms := some 1100,
    barge_in_frames := 3 }

/-- A session in which a barge-in has already been triggered for the
current burst. -/
def c10State : VLState :=
  { readyVLState with
    response_active := true,
    current_burst_active := true,
    agent_burst_start_ms := some 0,
    current_dynamic_threshold := some 340,
    barge_in_triggered := true }

/-- The aggregator right after `begin_call("call-1", "hello")` at
`t = 10` on a process started at `t = 5`. -/
def c8State : AppStateRec :=
  begin_call (initAppState 5) "call-1" "hello" 10

/-- The state-preservation bundle used when reasoning about the barge-in
detector: the fields the detector reads or the barge-in effects touch. -/
def BargeObs (a b : VLState) : Prop :=
  a.barge_in_triggered = b.barge_in_triggered ∧
  a.response_active = b.response_active ∧
  a.current_burst_active = b.current_burst_active ∧
  a.seg_queue = b.seg_queue ∧
  a.barge_in_candidate_start_ms = b.barge_in_candidate_start_ms ∧
  a.barge_in_frames = b.barge_in_frames ∧
  a.barge_in_release_counter = b.barge_in_release_counter ∧
  a.barge_in_last_trigger_ms = b.barge_in_last_trigger_ms ∧
  a.agent_burst_start_ms = b.agent_burst_start_ms ∧
  a.barge_in_enabled = b.barge_in_enabled ∧
  a.dynamic_rms_enabled = b.dynamic_rms_enabled

/-! ## Theorems -/

/-! ### Shared helper lemmas -/

theorem pcmSlice_zero (pcm : Frame) (fb : ℕ) : pcmSlice pcm fb 0 = pcm.take fb := by
  simp [pcmSlice]

theorem pcmSlice_succ (pcm : Frame) (fb i : ℕ) :
    pcmSlice pcm fb (i + 1) = pcmSlice (pcm.drop fb) fb i := by
  simp [pcmSlice, List.drop_drop, Nat.succ_mul, Nat.add_comm]

/-- Concatenating the `k` whole slices of a list of length `k · fb`
recovers the list: the forwarding loop of `_handle_inbound_pcm` preserves
both the count and the order of the bytes. -/
theorem slices_flatten (fb : ℕ) :
    ∀ (k : ℕ) (l : Frame), l.length = k * fb →
      ((List.range k).map (pcmSlice l fb)).flatten = l := by
  intro k
  induction k with
  | zero =>
    intro l hl
    simp only [Nat.zero_mul] at hl
    simp [List.eq_nil_of_length_eq_zero hl]
  | succ n ih =>
    intro l hl
    rw [List.range_succ_eq_map]
    simp only [List.map_cons, List.flatten_cons, List.map_map]
    have h1 : List.map (pcmSlice l fb ∘ Nat.succ) (List.range n)
        = List.map (pcmSlice (l.drop fb) fb) (List.range n) := by
      refine List.map_congr_left (fun i _ => ?_)
      simp [Function.comp, pcmSlice_succ]
    have h2 : (l.drop fb).length = n * fb := by
      simp only [List.length_drop, hl, Nat.succ_mul]
      omega
    rw [h1, ih (l.drop fb) h2, pcmSlice_zero, List.take_append_drop]

/-- The `/app2` bridge forwards exactly `len / frame_bytes` frames whose
concatenation is the input, for any whole-frame payload with the session
active and inbound bridging enabled. -/
theorem app2_forwards_exactly (pcm : Frame) (st : Media2) (now : ℚ) (fb : ℕ)
    (hne : pcm ≠ []) (hmul : pcm.length % fb = 0) :
    ((handleInboundPcm2 pcm st now true true fb).2).length = pcm.length / fb ∧
    ((handleInboundPcm2 pcm st now true true fb).2).flatten = pcm := by
  have hlen : pcm.length = (pcm.length / fb) * fb :=
    (Nat.div_mul_cancel (Nat.dvd_of_mod_eq_zero hmul)).symm
  unfold handleInboundPcm2
  rw [if_neg hne]
  constructor
  · simp
  · simpa using slices_flatten fb (pcm.length / fb) pcm hlen

/-- `"started"` is not among the keys any `AppState` method writes. -/
theorem started_not_written (op : AppStateMediaOp) : "started" ∉ mediaKeysWritten op := by
  cases op <;> simp [mediaKeysWritten]

/-- No reachable `media` dictionary ever holds the key `"started"`. -/
theorem started_not_in_mediaKeysAfter (ops : List AppStateMediaOp) :
    "started" ∉ mediaKeysAfter ops := by
  have h : ∀ (ops : List AppStateMediaOp) (ks : List String), "started" ∉ ks →
      "started" ∉ ops.foldl (fun a op => a ++ mediaKeysWritten op) ks := by
    intro ops
    induction ops with
    | nil => intro ks h; simpa using h
    | cons op rest ih =>
      intro ks h
      simp only [List.foldl_cons]
      apply ih
      simp only [List.mem_append]
      rintro (h1 | h2)
      · exact h h1
      · exact started_not_written op h2
  exact h ops initMediaKeys (by simp [initMediaKeys])

/-! ### Claim theorems -/

set_option maxRecDepth 8192 in
/-- C1: the claim says that for every inbound PCM payload whose length is
a multiple of `frame_bytes`, delivered with an active speech session and
input bridging enabled, the bridge forwards exactly `len / frame_bytes`
frames via `send_input_frame`.  The `/app` bridge instead raises
`AttributeError` on every such payload — `app/state.AppState` has no
`media_in_audio` method — before any frame is forwarded, so `0` frames
reach the session instead of `len / frame_bytes = 1` for a single
640-byte frame.  (The `/app2` bridge, whose `AppState` does define
`media_in_audio`, satisfies the claim: see `app2_forwards_exactly`.) -/
theorem c1_app_bridge_crashes_before_forwarding :
    handleInboundPcmApp (List.replicate 640 0) initAppMedia true true 640 =
      Except.error () := by
  have h1 : (List.replicate 640 (0 : ℕ)) ≠ [] := by simp
  unfold handleInboundPcmApp
  rw [if_neg h1]
  simp

/-- C3: while the GA SDK connection is in use, every frame offered to
`SpeechSession.send_input_frame` is discarded before reaching the service
input buffer: after any sequence of `AppState` operations the `media`
dictionary has no `"started"` key, so `app_state.media.get("started")` is
falsy and the method returns before buffering; the `buffered` outcome is
unreachable, and a well-formed frame is dropped at exactly that check. -/
theorem c3_ga_path_discards_all_frames (ops : List AppStateMediaOp)
    (active : Bool) (frameLen frameBytes : ℕ) :
    sendInputFrameGA active frameLen frameBytes true (mediaKeysAfter ops) ≠ .buffered ∧
    (active = true → frameLen = frameBytes → frameLen ≠ 0 →
      sendInputFrameGA active frameLen frameBytes true (mediaKeysAfter ops) = .notStarted) := by
  have hmem := started_not_in_mediaKeysAfter ops
  have hs : ("started" ∈ mediaKeysAfter ops) = False := by simp [hmem]
  constructor
  · unfold sendInputFrameGA
    split
    · simp
    · simp [hs]
  · intro h1 h2 h3
    unfold sendInputFrameGA
    rw [if_neg (fun hc => hc ⟨h1, h3, h2⟩)]
    simp [hs]

/-- Witness for C3 at a concrete operation sequence and a 640-byte frame. -/
theorem c3_witness :
    sendInputFrameGA true 640 640 true (mediaKeysAfter [AppStateMediaOp.media_ws_open]) =
      GAOutcome.notStarted :=
  (c3_ga_path_discards_all_frames [AppStateMediaOp.media_ws_open] true 640 640).2
    rfl rfl (by decide)

/-- C4: whenever the commit accumulator counts zero speech frames and the
trigger is none of `max_buffer_safety` / `no_speech_timeout` /
`low_speech_escalation`, `_commit_now` sends no
`input_audio_buffer.commit` (and leaves the state untouched); when the
call reaches the universal guard (not pre-empted by the awaiting-ack or
cooldown short-circuit, which also refuses silently), the block reason
`no_speech` is recorded via `app_state.media_commit_block`. -/
theorem c4_no_speech_guard (cfg : VLCfg) (s : VLState) (t : CommitTrigger) (now : ℚ)
    (h0 : s.commit_accum_speech_frames = 0)
    (h1 : t ≠ .max_buffer_safety) (h2 : t ≠ .no_speech_timeout)
    (h3 : t ≠ .low_speech_escalation) :
    (commitNow cfg s t now).2.1 = [] ∧ (commitNow cfg s t now).1 = s ∧
    (s.awaiting_commit_ack = false → s.commit_cooldown_frames = 0 →
      (commitNow cfg s t now).2.2 = some BlockReason.no_speech) := by
  unfold commitNow
  split
  next hcond =>
    refine ⟨rfl, rfl, fun ha hc => ?_⟩
    rcases hcond with h | h
    · simp [ha] at h
    · omega
  next =>
    rw [if_pos ⟨h0, h1, h2, h3⟩]
    exact ⟨rfl, rfl, fun _ _ => rfl⟩

/-- Witness for C4: a ready session with an empty accumulator and a
`silence_after_speech` trigger. -/
theorem c4_witness :
    (commitNow testCfg readyVLState .silence_after_speech 500).2.1 = [] ∧
    (commitNow testCfg readyVLState .silence_after_speech 500).2.2 =
      some BlockReason.no_speech :=
  ⟨(c4_no_speech_guard testCfg readyVLState .silence_after_speech 500
      rfl (by decide) (by decide) (by decide)).1,
   (c4_no_speech_guard testCfg readyVLState .silence_after_speech 500
      rfl (by decide) (by decide) (by decide)).2.2 rfl rfl⟩

/-- C7 counterexample: a malformed-JSON text message is dropped and the
loop continues, but the metrics record is returned **unchanged** — no
decode-error counter is incremented, contrary to the claim (the `except`
handler is a bare `continue`; no such counter exists in `AppState`). -/
theorem c7_counterexample :
    mediaLoopTextStep .malformed initAppMedia true true 640 =
      Except.ok (initAppMedia, []) := rfl

/-- C7 (amended): malformed JSON and undecodable base64 are dropped
without failing the socket and without touching any counter. -/
theorem c7_decode_errors_dropped (st : AppMedia) (sa ei : Bool) (fb : ℕ) :
    mediaLoopTextStep .malformed st sa ei fb = Except.ok (st, []) ∧
    mediaLoopTextStep (.audioB64 none) st sa ei fb = Except.ok (st, []) :=
  ⟨rfl, rfl⟩

/-- C8 counterexample: taking a snapshot does **not** leave the
aggregator unchanged — with an active call begun at `t = 10`,
`snapshot` at `t = 11` writes `duration_sec` into the aggregator's own
call record. -/
theorem c8_counterexample : (snapshot c8State 11).1 ≠ c8State := by
  decide

/-- C8 (amended): `snapshot` copies the `media` map at the top level and
leaves the scalar fields, prompts, and the Voice Live record unchanged,
but it is not a deep copy: it augments the aggregator call records in
place with `duration_sec`, and the returned view holds those same
(mutated) records. -/
theorem c8_snapshot_shallow (s : AppStateRec) (now : ℚ) :
    (snapshot s now).2.media = s.media ∧
    (snapshot s now).1.media = s.media ∧
    (snapshot s now).1.current_call = augmentWithDuration now s.current_call ∧
    (snapshot s now).1.last_call = augmentWithDuration now s.last_call ∧
    (snapshot s now).2.call_current = (snapshot s now).1.current_call ∧
    (snapshot s now).2.call_last = (snapshot s now).1.last_call ∧
    (snapshot s now).1.started_at = s.started_at ∧
    (snapshot s now).1.last_call_id = s.last_call_id ∧
    (snapshot s now).1.last_voicelive_session_id = s.last_voicelive_session_id ∧
    (snapshot s now).1.last_error = s.last_error ∧
    (snapshot s now).1.call_prompts = s.call_prompts ∧
    (snapshot s now).1.last_event_at = s.last_event_at ∧
    (snapshot s now).1.voicelive_session = s.voicelive_session :=
  ⟨rfl, rfl, rfl, rfl, rfl, rfl, rfl, rfl, rfl, rfl, rfl, rfl, rfl⟩

/-- The replay fold journals exactly the frames it is given, in order. -/
theorem replayFold_replayed (cfg : VLCfg) (now : ℚ) :
    ∀ (l : List Frame) (acc : EventOut),
      (replayFold cfg now l acc).replayed = acc.replayed ++ l := by
  intro l
  unfold replayFold
  induction l with
  | nil => intro acc; simp
  | cons f t ih =>
    intro acc
    rw [List.foldl_cons, ih]
    simp

/-- The full effect of the `input_audio_buffer_commit_empty` error
branch of `receive_loop`, as one state equation. -/
theorem commitEmpty_eq (cfg : VLCfg) (s : VLState) (now : ℚ) :
    handleEvent cfg s .errorCommitEmpty now =
      ⟨{ s with
          event_type_count :=
            if s.event_type_count < 10 then s.event_type_count + 1 else s.event_type_count,
          commit_empty_errors := s.commit_empty_errors + 1,
          awaiting_commit_ack := false,
          total_frames_during_ack := s.total_frames_during_ack + s.frames_during_ack,
          frames_during_ack := 0,
          adaptive_min_ms :=
            if 300 < s.adaptive_min_ms + max (pyInt s.frame_ms_in) 20 then 300
            else s.adaptive_min_ms + max (pyInt s.frame_ms_in) 20,
          frame_ms_in := if s.frame_ms_in ≤ 0 then 20 else s.frame_ms_in,
          threshold_frames :=
            (max 1 ⌈(((if 300 < s.adaptive_min_ms + max (pyInt s.frame_ms_in) 20 then 300
                else s.adaptive_min_ms + max (pyInt s.frame_ms_in) 20) +
                cfg.vl_input_safety_ms : ℤ) : ℚ) /
                (if s.frame_ms_in ≤ 0 then 20 else s.frame_ms_in)⌉).toNat,
          commit_ready := false,
          in_frames_since_commit := 0,
          in_ms_since_commit := 0,
          accum_started := none,
          commit_cooldown_frames := max s.commit_cooldown_frames 8 }, [], [], false, []⟩ := by
  unfold handleEvent recomputeThreshold
  by_cases hc : s.event_type_count < 10 <;>
    by_cases hf : s.frame_ms_in ≤ 0 <;>
      by_cases h3 : 300 < s.adaptive_min_ms + max (pyInt s.frame_ms_in) 20 <;>
        simp [hc, hf, h3]

/-- C5: on an `error` event with code `input_audio_buffer_commit_empty`
the session raises `adaptive_min_ms` by one frame duration (at least
20 ms) capped at 300 ms, recomputes the frame threshold from the new
minimum, sets a cooldown of at least 8 frames, clears the awaiting-ack
flag, resets the accumulation clock (`_in_frames_since_commit`,
`_in_ms_since_commit`, `_accum_started_monotonic`), and continues: no
message is sent, nothing escalates, and the connection flags are
untouched. -/
theorem c5_commit_empty_policy (cfg : VLCfg) (s : VLState) (now : ℚ) :
    ((handleEvent cfg s .errorCommitEmpty now).state.adaptive_min_ms =
        min (s.adaptive_min_ms + max (pyInt s.frame_ms_in) 20) 300) ∧
    (20 ≤ max (pyInt s.frame_ms_in) 20) ∧
    ((handleEvent cfg s .errorCommitEmpty now).state.frame_ms_in =
        if s.frame_ms_in ≤ 0 then 20 else s.frame_ms_in) ∧
    ((handleEvent cfg s .errorCommitEmpty now).state.threshold_frames =
        (max 1 ⌈(((handleEvent cfg s .errorCommitEmpty now).state.adaptive_min_ms
            + cfg.vl_input_safety_ms : ℤ) : ℚ) /
            (handleEvent cfg s .errorCommitEmpty now).state.frame_ms_in⌉).toNat) ∧
    ((handleEvent cfg s .errorCommitEmpty now).state.commit_cooldown_frames =
        max s.commit_cooldown_frames 8) ∧
    (8 ≤ (handleEvent cfg s .errorCommitEmpty now).state.commit_cooldown_frames) ∧
    ((handleEvent cfg s .errorCommitEmpty now).state.awaiting_commit_ack = false) ∧
    ((handleEvent cfg s .errorCommitEmpty now).state.in_frames_since_commit = 0) ∧
    ((handleEvent cfg s .errorCommitEmpty now).state.in_ms_since_commit = 0) ∧
    ((handleEvent cfg s .errorCommitEmpty now).state.accum_started = none) ∧
    ((handleEvent cfg s .errorCommitEmpty now).state.closed = s.closed) ∧
    ((handleEvent cfg s .errorCommitEmpty now).state.wsConnected = s.wsConnected) ∧
    ((handleEvent cfg s .errorCommitEmpty now).msgs = []) ∧
    ((handleEvent cfg s .errorCommitEmpty now).bargeFired = false) := by
  have hmin : (if 300 < s.adaptive_min_ms + max (pyInt s.frame_ms_in) 20 then (300 : ℤ)
      else s.adaptive_min_ms + max (pyInt s.frame_ms_in) 20) =
      min (s.adaptive_min_ms + max (pyInt s.frame_ms_in) 20) 300 := by
    split <;> omega
  rw [commitEmpty_eq]
  refine ⟨?_, ?_, rfl, ?_, rfl, ?_, rfl, rfl, rfl, rfl, rfl, rfl, rfl, rfl⟩
  · exact hmin
  · exact le_max_right _ _
  · simp only [hmin]
  · exact le_max_right _ _

/-- C2 counterexample: with the default configuration, a session awaiting
a commit ack with one staged frame and `response_active = true` receives
`input_audio_buffer.committed` — and no staged frame is replayed: the
flush is nested inside the auto-response conditional, so the frame stays
in the staging buffer. -/
theorem c2_counterexample :
    c2State.awaiting_commit_ack = true ∧
    c2State.staged_frames = [[1, 2]] ∧
    testCfg.auto_response_on_commit = true ∧
    (handleEvent testCfg c2State .committed 0).replayed = [] ∧
    (handleEvent testCfg c2State .committed 0).state.staged_frames = [[1, 2]] := by
  refine ⟨rfl, rfl, rfl, ?_, ?_⟩ <;> decide

/-- C2 (amended): while a commit ack is outstanding every frame offered
to `send_input_audio_frame` (on an active, format-ready session) is
appended to the staging buffer and nothing is sent; and on the
`committed` ack the staged frames are re-injected, in order, through the
normal intake path — but only when auto-response-on-commit is enabled and
no response or burst is active at ack time (otherwise they remain
staged). -/
theorem c2_staging_and_conditional_replay :
    (∀ (cfg : VLCfg) (s : VLState) (f : Frame) (now : ℚ),
      vlActive s = true → f ≠ [] → s.input_format_ready = true →
      s.awaiting_commit_ack = true →
      sendInputAudioFrame cfg s f now =
        ⟨{ s with staged_frames := s.staged_frames ++ [f],
                  frames_during_ack := s.frames_during_ack + 1 }, [], [], false⟩) ∧
    (∀ (cfg : VLCfg) (s : VLState) (now : ℚ),
      cfg.auto_response_on_commit = true → s.response_active = false →
      s.current_burst_active = false →
      (handleEvent cfg s .committed now).replayed = s.staged_frames) := by
  constructor
  · intro cfg s f now ha hne hr hack
    unfold sendInputAudioFrame
    rw [if_neg (by simp [ha, hne]), if_neg (by simp [hr]), if_pos hack]
  · intro cfg s now hauto hresp hburst
    unfold handleEvent
    by_cases hc : s.event_type_count < 10 <;>
      simp [hc, hauto, hresp, hburst, replayFold_replayed]

/-- Witness for C2 at concrete states: a staged frame during the ack
window, and a full replay when no response is active at ack time. -/
theorem c2_witness :
    sendInputAudioFrame testCfg c2State [7] 0 =
      ⟨{ c2State with staged_frames := c2State.staged_frames ++ [[7]],
                      frames_during_ack := c2State.frames_during_ack + 1 }, [], [], false⟩ ∧
    (handleEvent testCfg c2ReplayState .committed 0).replayed =
      c2ReplayState.staged_frames :=
  ⟨c2_staging_and_conditional_replay.1 testCfg c2State [7] 0 rfl (by decide) rfl rfl,
   c2_staging_and_conditional_replay.2 testCfg c2ReplayState 0 rfl rfl rfl⟩

/-- C9: once the session is active, the frame non-empty and the input
format ready, a frame of **any** byte length is either staged (ack
outstanding) or appended to the service (an
`input_audio_buffer.append` goes out): the frame-size rejection check in
`send_input_audio_frame` follows a `return` statement inside the
not-ready branch and is dead code, so no execution path rejects a frame
for having the wrong size. -/
theorem c9_frames_never_size_rejected (cfg : VLCfg) (s : VLState) (pcm : Frame) (now : ℚ)
    (ha : vlActive s = true) (hne : pcm ≠ []) (hr : s.input_format_ready = true) :
    (s.awaiting_commit_ack = true →
      (sendInputAudioFrame cfg s pcm now).state.staged_frames = s.staged_frames ++ [pcm]) ∧
    (s.awaiting_commit_ack = false →
      VLMsg.append (vlSendBytes cfg s pcm).1 ∈ (sendInputAudioFrame cfg s pcm now).msgs) := by
  unfold sendInputAudioFrame
  rw [if_neg (by simp [ha, hne]), if_neg (by simp [hr])]
  constructor
  · intro hack
    rw [if_pos hack]
  · intro hack
    rw [if_neg (by simp [hack])]
    simp

/-- Witness for C9 with a 3-byte frame (not the expected 640 bytes): the
frame is still appended. -/
theorem c9_witness :
    vlActive readyVLState = true ∧ readyVLState.awaiting_commit_ack = false ∧
    VLMsg.append [5, 6, 7] ∈ (sendInputAudioFrame testCfg readyVLState [5, 6, 7] 0).msgs := by
  refine ⟨by decide, by decide, ?_⟩
  have he : (vlSendBytes testCfg readyVLState [5, 6, 7]).1 = [5, 6, 7] := by decide
  have h := (c9_frames_never_size_rejected testCfg readyVLState [5, 6, 7] 0
    (by decide) (by decide) (by decide)).2 (by decide)
  rwa [he] at h

theorem bargeObs_trans {a b c : VLState} (h1 : BargeObs a b) (h2 : BargeObs b c) :
    BargeObs a c := by
  obtain ⟨a1, a2, a3, a4, a5, a6, a7, a8, a9, a10, a11⟩ := h1
  obtain ⟨b1, b2, b3, b4, b5, b6, b7, b8, b9, b10, b11⟩ := h2
  exact ⟨a1.trans b1, a2.trans b2, a3.trans b3, a4.trans b4, a5.trans b5, a6.trans b6,
    a7.trans b7, a8.trans b8, a9.trans b9, a10.trans b10, a11.trans b11⟩

theorem commitNow_bargeObs (cfg : VLCfg) (s : VLState) (t : CommitTrigger) (now : ℚ) :
    BargeObs (commitNow cfg s t now).1 s := by
  unfold commitNow
  dsimp only
  (repeat' split) <;> exact ⟨rfl, rfl, rfl, rfl, rfl, rfl, rfl, rfl, rfl, rfl, rfl⟩

theorem recomputeThreshold_bargeObs (cfg : VLCfg) (s : VLState) (force : Bool) :
    BargeObs (recomputeThreshold cfg s force) s := by
  unfold recomputeThreshold
  dsimp only
  (repeat' split) <;> exact ⟨rfl, rfl, rfl, rfl, rfl, rfl, rfl, rfl, rfl, rfl, rfl⟩

theorem vlInTick_bargeObs (cfg : VLCfg) (s : VLState) (f now : ℚ) :
    BargeObs (vlInTick cfg s f now) s := by
  unfold vlInTick recomputeThreshold
  refine ⟨?_, ?_, ?_, ?_, ?_, ?_, ?_, ?_, ?_, ?_, ?_⟩ <;>
    simp only [apply_ite VLState.barge_in_triggered, apply_ite VLState.response_active,
      apply_ite VLState.current_burst_active, apply_ite VLState.seg_queue,
      apply_ite VLState.barge_in_candidate_start_ms, apply_ite VLState.barge_in_frames,
      apply_ite VLState.barge_in_release_counter, apply_ite VLState.barge_in_last_trigger_ms,
      apply_ite VLState.agent_burst_start_ms, apply_ite VLState.barge_in_enabled,
      apply_ite VLState.dynamic_rms_enabled, ite_self]

theorem vadUpdate_bargeObs (cfg : VLCfg) (s : VLState) (len : ℕ) (rms : ℤ) (now : ℚ) :
    BargeObs (vadUpdate cfg s len rms now) s := by
  unfold vadUpdate
  refine ⟨?_, ?_, ?_, ?_, ?_, ?_, ?_, ?_, ?_, ?_, ?_⟩ <;>
    simp only [apply_ite VLState.barge_in_triggered, apply_ite VLState.response_active,
      apply_ite VLState.current_burst_active, apply_ite VLState.seg_queue,
      apply_ite VLState.barge_in_candidate_start_ms, apply_ite VLState.barge_in_frames,
      apply_ite VLState.barge_in_release_counter, apply_ite VLState.barge_in_last_trigger_ms,
      apply_ite VLState.agent_burst_start_ms, apply_ite VLState.barge_in_enabled,
      apply_ite VLState.dynamic_rms_enabled,
      apply_ite (Prod.fst : VLState × ℤ → VLState), ite_self]

theorem vlSpeechProgress_bargeObs (s : VLState) (f : ℚ) :
    BargeObs (vlSpeechProgress s f) s := by
  unfold vlSpeechProgress
  (repeat' split) <;> exact ⟨rfl, rfl, rfl, rfl, rfl, rfl, rfl, rfl, rfl, rfl, rfl⟩

theorem vlSpeechProgress_dyn (s : VLState) (f : ℚ) :
    (vlSpeechProgress s f).current_dynamic_threshold = s.current_dynamic_threshold := by
  unfold vlSpeechProgress
  (repeat' split) <;> rfl

theorem ceStageA_bargeObs (cfg : VLCfg) (s : VLState) :
    BargeObs (ceStageA cfg s).1 s := by
  unfold ceStageA ceSilenceReset
  (repeat' split) <;> exact ⟨rfl, rfl, rfl, rfl, rfl, rfl, rfl, rfl, rfl, rfl, rfl⟩

theorem ceGateMinSpeech_bargeObs (cfg : VLCfg) (s : VLState) (tr : Option CommitTrigger) :
    BargeObs (ceGateMinSpeech cfg s tr).1 s := by
  unfold ceGateMinSpeech
  dsimp only
  (repeat' split) <;> exact ⟨rfl, rfl, rfl, rfl, rfl, rfl, rfl, rfl, rfl, rfl, rfl⟩

theorem ceGateMinUser_bargeObs (cfg : VLCfg) (s : VLState) (f : ℚ) (tr : Option CommitTrigger) :
    BargeObs (ceGateMinUser cfg s f tr).1 s := by
  unfold ceGateMinUser
  (repeat' split) <;> exact ⟨rfl, rfl, rfl, rfl, rfl, rfl, rfl, rfl, rfl, rfl, rfl⟩

theorem commitEval_bargeObs (cfg : VLCfg) (s : VLState) (f now : ℚ) :
    BargeObs (commitEval cfg s f now).1 s := by
  unfold commitEval
  dsimp only
  split
  · exact bargeObs_trans (commitNow_bargeObs _ _ _ _)
      (bargeObs_trans (ceGateMinUser_bargeObs _ _ _ _)
        (bargeObs_trans (ceGateMinSpeech_bargeObs _ _ _) (ceStageA_bargeObs _ _)))
  · exact bargeObs_trans (ceGateMinUser_bargeObs _ _ _ _)
      (bargeObs_trans (ceGateMinSpeech_bargeObs _ _ _) (ceStageA_bargeObs _ _))

theorem vadUpdate_dyn_some (cfg : VLCfg) (s : VLState) (len : ℕ) (rms : ℤ) (now : ℚ)
    (hdyn : s.dynamic_rms_enabled = true) (hlen : 2 ≤ len) :
    ∃ v, (vadUpdate cfg s len rms now).current_dynamic_threshold = some v := by
  unfold vadUpdate
  rw [if_neg (by omega)]
  split <;>
  · rw [if_pos (by simpa using hdyn)]
    exact ⟨_, rfl⟩

theorem biLockCheck_locked (cfg : VLCfg) (s : VLState) (e : ℚ)
    (h : e < cfg.vl_barge_in_lock_ms) :
    biLockCheck cfg s e =
      ((if s.barge_in_candidate_start_ms ≠ none then biResetCandidate s else s), true) := by
  unfold biLockCheck
  rw [if_pos h]

theorem biTrack_passLock (cfg : VLCfg) (s : VLState) (now : ℚ)
    (candOk : Prop) [Decidable candOk] (below : Prop) [Decidable below]
    (hc : s.barge_in_candidate_start_ms = none) :
    biTrack cfg s now true candOk below = { s with barge_in_frames := 0 } := by
  unfold biTrack
  rw [if_neg (by simp), if_neg (by simp [hc])]

theorem biTrack_preserves (cfg : VLCfg) (s : VLState) (now : ℚ) (passLock : Bool)
    (candOk : Prop) [Decidable candOk] (below : Prop) [Decidable below] :
    (biTrack cfg s now passLock candOk below).barge_in_triggered = s.barge_in_triggered ∧
    (biTrack cfg s now passLock candOk below).response_active = s.response_active ∧
    (biTrack cfg s now passLock candOk below).current_burst_active = s.current_burst_active ∧
    (biTrack cfg s now passLock candOk below).seg_queue = s.seg_queue ∧
    (biTrack cfg s now passLock candOk below).barge_in_last_trigger_ms =
      s.barge_in_last_trigger_ms ∧
    (biTrack cfg s now passLock candOk below).agent_burst_start_ms = s.agent_burst_start_ms ∧
    (biTrack cfg s now passLock candOk below).commit_accum_speech_frames =
      s.commit_accum_speech_frames := by
  unfold biTrack biResetCandidate
  dsimp only
  (repeat' split) <;> exact ⟨rfl, rfl, rfl, rfl, rfl, rfl, rfl⟩

theorem biLockCheck_preserves (cfg : VLCfg) (s : VLState) (e : ℚ) :
    ((biLockCheck cfg s e).1.barge_in_triggered = s.barge_in_triggered) ∧
    ((biLockCheck cfg s e).1.response_active = s.response_active) ∧
    ((biLockCheck cfg s e).1.current_burst_active = s.current_burst_active) ∧
    ((biLockCheck cfg s e).1.seg_queue = s.seg_queue) ∧
    ((biLockCheck cfg s e).1.barge_in_last_trigger_ms = s.barge_in_last_trigger_ms) ∧
    ((biLockCheck cfg s e).1.agent_burst_start_ms = s.agent_burst_start_ms) ∧
    ((biLockCheck cfg s e).1.commit_accum_speech_frames = s.commit_accum_speech_frames) := by
  unfold biLockCheck biResetCandidate
  (repeat' split) <;> exact ⟨rfl, rfl, rfl, rfl, rfl, rfl, rfl⟩

theorem biFire_sticky (cfg : VLCfg) (s : VLState) (now : ℚ)
    (P : Prop) [Decidable P] (h : s.barge_in_triggered = true) :
    (biFire cfg s now P).2.2.2 = false ∧
    (biFire cfg s now P).1.barge_in_triggered = true := by
  unfold biFire
  rw [if_neg (fun hc => hc.2 h)]
  exact ⟨rfl, h⟩

theorem biFire_fired (cfg : VLCfg) (s : VLState) (now : ℚ)
    (P : Prop) [Decidable P] (hf : (biFire cfg s now P).2.2.2 = true) :
    s.barge_in_triggered = false ∧
    (biFire cfg s now P).1.barge_in_triggered = true := by
  unfold biFire at hf ⊢
  split at hf
  next hc =>
    rw [if_pos hc]
    refine ⟨by simpa using hc.2, ?_⟩
    dsimp only
    split
    · exact ((commitNow_bargeObs _ _ _ _).1).trans rfl
    · rfl
  next hc => exact absurd hf (by simp)

theorem biFire_not (cfg : VLCfg) (s : VLState) (now : ℚ)
    (P : Prop) [Decidable P] (h : ¬ P) :
    biFire cfg s now P = (s, [], none, false) := by
  unfold biFire
  rw [if_neg (fun hc => h hc.1)]

theorem bargeInStep_sticky (cfg : VLCfg) (s : VLState) (rms : ℤ) (rc : Bool) (now : ℚ)
    (h : s.barge_in_triggered = true) :
    (bargeInStep cfg s rms rc now).2.2.2 = false ∧
    (bargeInStep cfg s rms rc now).1.barge_in_triggered = true := by
  unfold bargeInStep
  split
  · exact ⟨rfl, h⟩
  split
  · exact ⟨rfl, h⟩
  dsimp only
  refine biFire_sticky cfg _ now _ ?_
  rw [(biTrack_preserves _ _ _ _ _ _).1, (biLockCheck_preserves _ _ _).1]
  split <;> exact h

theorem bargeInStep_fired (cfg : VLCfg) (s : VLState) (rms : ℤ) (rc : Bool) (now : ℚ)
    (hf : (bargeInStep cfg s rms rc now).2.2.2 = true) :
    s.barge_in_triggered = false ∧
    (bargeInStep cfg s rms rc now).1.barge_in_triggered = true := by
  unfold bargeInStep at hf ⊢
  split at hf
  next hc1 => exact absurd hf (by simp)
  next hc1 =>
    split at hf
    next hc2 => exact absurd hf (by simp)
    next hc2 =>
      rw [if_neg hc1, if_neg hc2]
      dsimp only at hf ⊢
      have hz := biFire_fired _ _ _ _ hf
      refine ⟨?_, hz.2⟩
      have h1 := hz.1
      rw [(biTrack_preserves _ _ _ _ _ _).1, (biLockCheck_preserves _ _ _).1] at h1
      split at h1 <;> exact h1

theorem bargeInStep_lock (cfg : VLCfg) (s : VLState) (rms : ℤ) (now t : ℚ)
    (hen : s.barge_in_enabled = true)
    (hact : s.response_active = true ∨ s.current_burst_active = true)
    (hdyn : s.current_dynamic_threshold ≠ none)
    (hab : s.agent_burst_start_ms = some t)
    (hlock : now - t < cfg.vl_barge_in_lock_ms) :
    (bargeInStep cfg s rms true now).2.2.2 = false ∧
    (bargeInStep cfg s rms true now).2.1 = [] ∧
    (bargeInStep cfg s rms true now).2.2.1 = none ∧
    (bargeInStep cfg s rms true now).1.barge_in_triggered = s.barge_in_triggered ∧
    (bargeInStep cfg s rms true now).1.response_active = s.response_active ∧
    (bargeInStep cfg s rms true now).1.current_burst_active = s.current_burst_active ∧
    (bargeInStep cfg s rms true now).1.seg_queue = s.seg_queue ∧
    (bargeInStep cfg s rms true now).1.barge_in_candidate_start_ms = none ∧
    (bargeInStep cfg s rms true now).1.barge_in_frames = 0 := by
  unfold bargeInStep
  rw [if_neg (fun hc => hc ⟨hen, hact⟩), if_neg (fun hc => hc ⟨rfl, hdyn⟩)]
  dsimp only
  simp only [hab]
  rw [if_neg (Option.some_ne_none t)]
  simp only [hab]
  (try dsimp only)
  rw [biLockCheck_locked cfg s _ hlock]
  (try dsimp only)
  by_cases hcand : s.barge_in_candidate_start_ms ≠ none
  · rw [if_pos hcand, biTrack_passLock _ _ _ _ _ rfl]
    dsimp only [biResetCandidate]
    rw [biFire_not _ _ _ _ (fun hc => hc.1 rfl)]
    exact ⟨rfl, rfl, rfl, rfl, rfl, rfl, rfl, rfl, rfl⟩
  · rw [if_neg hcand, biTrack_passLock _ _ _ _ _ (not_not.mp hcand)]
    rw [biFire_not _ _ _ _ (fun hc => hc.1 (not_not.mp hcand))]
    exact ⟨rfl, rfl, rfl, rfl, rfl, rfl, rfl, not_not.mp hcand, rfl⟩

theorem vlPreBarge_bargeObs (cfg : VLCfg) (s : VLState) (pcm : Frame) (now : ℚ) :
    BargeObs (vlPreBarge cfg s pcm now) s := by
  unfold vlPreBarge
  (try dsimp only)
  exact bargeObs_trans (vlSpeechProgress_bargeObs _ _)
    (bargeObs_trans (vadUpdate_bargeObs _ _ _ _ _)
      (bargeObs_trans (vlInTick_bargeObs _ _ _ _)
        ⟨rfl, rfl, rfl, rfl, rfl, rfl, rfl, rfl, rfl, rfl, rfl⟩))

theorem vlPreBarge_dyn_some (cfg : VLCfg) (s : VLState) (pcm : Frame) (now : ℚ)
    (hdyn : s.dynamic_rms_enabled = true)
    (hlen : 2 ≤ (vlSendBytes cfg s pcm).1.length) :
    ∃ v, (vlPreBarge cfg s pcm now).current_dynamic_threshold = some v := by
  unfold vlPreBarge
  (try dsimp only)
  have h2 : (vlInTick cfg { s with input_resample_state := (vlSendBytes cfg s pcm).2 }
      (vlFrameMsEff cfg s (vlSendBytes cfg s pcm).1) now).dynamic_rms_enabled = true := by
    rw [(vlInTick_bargeObs _ _ _ _).2.2.2.2.2.2.2.2.2.2]
    exact hdyn
  obtain ⟨v, hv⟩ :=
    vadUpdate_dyn_some cfg _ _ (cfg.rmsOf (vlSendBytes cfg s pcm).1) now h2 hlen
  exact ⟨v, (vlSpeechProgress_dyn _ _).trans hv⟩

theorem sendFrame_sticky (cfg : VLCfg) (s : VLState) (pcm : Frame) (now : ℚ)
    (h : s.barge_in_triggered = true) :
    (sendInputAudioFrame cfg s pcm now).bargeFired = false ∧
    (sendInputAudioFrame cfg s pcm now).state.barge_in_triggered = true := by
  unfold sendInputAudioFrame
  split
  · exact ⟨rfl, h⟩
  split
  · exact ⟨rfl, h⟩
  split
  · exact ⟨rfl, h⟩
  dsimp only
  constructor
  · exact (bargeInStep_sticky _ _ _ _ _ (by
      rw [(vlPreBarge_bargeObs _ _ _ _).1]
      exact h)).1
  · exact ((commitEval_bargeObs _ _ _ _).1).trans
      ((bargeInStep_sticky _ _ _ _ _ (by
        rw [(vlPreBarge_bargeObs _ _ _ _).1]
        exact h)).2)

theorem sendFrame_fired (cfg : VLCfg) (s : VLState) (pcm : Frame) (now : ℚ)
    (hf : (sendInputAudioFrame cfg s pcm now).bargeFired = true) :
    s.barge_in_triggered = false ∧
    (sendInputAudioFrame cfg s pcm now).state.barge_in_triggered = true := by
  unfold sendInputAudioFrame at hf ⊢
  split at hf
  next => simp at hf
  next hg1 =>
    split at hf
    next => simp at hf
    next hg2 =>
      split at hf
      next => simp at hf
      next hg3 =>
        rw [if_neg hg1, if_neg hg2, if_neg hg3]
        dsimp only at hf ⊢
        have hz := bargeInStep_fired _ _ _ _ _ hf
        refine ⟨?_, ((commitEval_bargeObs _ _ _ _).1).trans hz.2⟩
        have h1 := hz.1
        rw [(vlPreBarge_bargeObs _ _ _ _).1] at h1
        exact h1

theorem enqueuePcm_triggered (cfg : VLCfg) (s : VLState) (pcm : Frame) :
    (enqueuePcm cfg s pcm).barge_in_triggered = s.barge_in_triggered := by
  unfold enqueuePcm
  (repeat' split) <;> rfl

theorem replayFold_sticky (cfg : VLCfg) (now : ℚ) (l : List Frame) :
    ∀ acc : EventOut, acc.state.barge_in_triggered = true →
    (replayFold cfg now l acc).bargeFired = acc.bargeFired ∧
    (replayFold cfg now l acc).state.barge_in_triggered = true := by
  induction l with
  | nil => exact fun acc h => ⟨rfl, h⟩
  | cons fr l ih =>
    intro acc h
    have hs := sendFrame_sticky cfg acc.state fr now h
    unfold replayFold at ih ⊢
    rw [List.foldl_cons]
    have hrec := ih ⟨(sendInputAudioFrame cfg acc.state fr now).state,
      acc.msgs ++ (sendInputAudioFrame cfg acc.state fr now).msgs,
      acc.blocks ++ (sendInputAudioFrame cfg acc.state fr now).blocks,
      acc.bargeFired || (sendInputAudioFrame cfg acc.state fr now).bargeFired,
      acc.replayed ++ [fr]⟩ hs.2
    refine ⟨hrec.1.trans ?_, hrec.2⟩
    dsimp only
    rw [hs.1, Bool.or_false]

theorem replayFold_fired (cfg : VLCfg) (now : ℚ) (l : List Frame) :
    ∀ acc : EventOut, acc.bargeFired = false →
    (replayFold cfg now l acc).bargeFired = true →
    acc.state.barge_in_triggered = false ∧
    (replayFold cfg now l acc).state.barge_in_triggered = true := by
  induction l with
  | nil =>
    intro acc h0 hf
    unfold replayFold at hf
    simp only [List.foldl_nil] at hf
    rw [h0] at hf
    exact absurd hf (by simp)
  | cons fr l ih =>
    intro acc h0 hf
    unfold replayFold at ih hf ⊢
    rw [List.foldl_cons] at hf ⊢
    by_cases hb : (sendInputAudioFrame cfg acc.state fr now).bargeFired = true
    · have hsf := sendFrame_fired cfg acc.state fr now hb
      have hst := replayFold_sticky cfg now l ⟨(sendInputAudioFrame cfg acc.state fr now).state,
        acc.msgs ++ (sendInputAudioFrame cfg acc.state fr now).msgs,
        acc.blocks ++ (sendInputAudioFrame cfg acc.state fr now).blocks,
        acc.bargeFired || (sendInputAudioFrame cfg acc.state fr now).bargeFired,
        acc.replayed ++ [fr]⟩ hsf.2
      have hst2 := hst.2
      unfold replayFold at hst2
      exact ⟨hsf.1, hst2⟩
    · have hb0 : (sendInputAudioFrame cfg acc.state fr now).bargeFired = false := by
        simpa using hb
      have hrec := ih ⟨(sendInputAudioFrame cfg acc.state fr now).state,
        acc.msgs ++ (sendInputAudioFrame cfg acc.state fr now).msgs,
        acc.blocks ++ (sendInputAudioFrame cfg acc.state fr now).blocks,
        acc.bargeFired || (sendInputAudioFrame cfg acc.state fr now).bargeFired,
        acc.replayed ++ [fr]⟩ (by simp [h0, hb0]) hf
      refine ⟨?_, hrec.2⟩
      have hcontr : (sendInputAudioFrame cfg acc.state fr now).state.barge_in_triggered = false :=
        hrec.1
      by_cases ht : acc.state.barge_in_triggered = true
      · exact absurd (sendFrame_sticky cfg acc.state fr now ht).2 (by rw [hcontr]; simp)
      · simpa using ht

theorem heOutRate_triggered (s : VLState) (outR : Option ℤ) :
    (heOutRate s outR).barge_in_triggered = s.barge_in_triggered := by
  unfold heOutRate
  (try dsimp only)
  split <;> rfl

theorem heFormatUpdate_triggered (cfg : VLCfg) (s : VLState) (inR : Option ℤ) :
    (heFormatUpdate cfg s inR).barge_in_triggered = s.barge_in_triggered := by
  unfold heFormatUpdate
  (try dsimp only)
  split
  · simp only [(recomputeThreshold_bargeObs _ _ _).1]
  · rfl

theorem handleEvent_sticky (cfg : VLCfg) (s : VLState) (e : VLEvent) (now : ℚ)
    (h : s.barge_in_triggered = true) (hce : isCompletionEvent e = false) :
    (handleEvent cfg s e now).bargeFired = false ∧
    (handleEvent cfg s e now).state.barge_in_triggered = true := by
  unfold handleEvent
  cases e
  case responseAudioDone => simp [isCompletionEvent] at hce
  case responseDone => simp [isCompletionEvent] at hce
  case responseContentPartAdded =>
    refine ⟨?_, ?_⟩ <;> (try dsimp only) <;> (repeat' split) <;> first | rfl | exact h
  case speechStarted =>
    refine ⟨?_, ?_⟩ <;> (try dsimp only) <;> (repeat' split) <;> first | rfl | exact h
  case responseOutputItemAdded =>
    refine ⟨?_, ?_⟩ <;> (try dsimp only) <;> (repeat' split) <;> first | rfl | exact h
  case speechStopped =>
    refine ⟨?_, ?_⟩ <;> (try dsimp only) <;> (repeat' split) <;> first | rfl | exact h
  case errorActiveResponse =>
    refine ⟨?_, ?_⟩ <;> (try dsimp only) <;> (repeat' split) <;> first | rfl | exact h
  case errorInvalidInputFormat =>
    refine ⟨?_, ?_⟩ <;> (try dsimp only) <;> (repeat' split) <;> first | rfl | exact h
  case errorOther =>
    refine ⟨?_, ?_⟩ <;> (try dsimp only) <;> (repeat' split) <;> first | rfl | exact h
  case sessionUpdated outR inR =>
    (try dsimp only)
    constructor
    · (repeat' split) <;> rfl
    · (repeat' split) <;> ((try dsimp only); rw [heFormatUpdate_triggered, heOutRate_triggered]) <;> exact h
  case responseAudioDelta pcm =>
    refine ⟨?_, ?_⟩ <;> (try dsimp only) <;> (repeat' split) <;>
      (try rw [enqueuePcm_triggered]) <;> (try (repeat' split)) <;> first | rfl | exact h
  case errorCommitEmpty =>
    refine ⟨?_, ?_⟩ <;> (try dsimp only) <;> (repeat' split) <;>
      (try rw [(recomputeThreshold_bargeObs _ _ _).1]) <;> (try (repeat' split)) <;>
      first | rfl | exact h
  case committed =>
    refine ⟨?_, ?_⟩ <;> (try dsimp only) <;> (repeat' split) <;>
      first
        | exact (replayFold_sticky cfg now _ _ h).1
        | exact (replayFold_sticky cfg now _ _ h).2
        | rfl
        | exact h

theorem handleEvent_fired (cfg : VLCfg) (s : VLState) (e : VLEvent) (now : ℚ)
    (hf : (handleEvent cfg s e now).bargeFired = true) :
    s.barge_in_triggered = false ∧
    (handleEvent cfg s e now).state.barge_in_triggered = true := by
  unfold handleEvent at hf ⊢
  cases e
  case committed =>
    revert hf
    (try dsimp only)
    (repeat' split) <;> intro hf <;>
      first
        | exact ⟨(replayFold_fired cfg now _ _ rfl hf).1, (replayFold_fired cfg now _ _ rfl hf).2⟩
        | simp at hf
  all_goals
    revert hf
    (try dsimp only)
    (repeat' split) <;> intro hf <;> simp at hf

/-- C6: while barge-in detection is enabled and an agent response or
burst is active, a frame processed within `vl_barge_in_lock_ms` of the
agent burst start never triggers a barge-in: `barge_in_triggered`,
`response_active`, `current_burst_active` and the outbound segment queue
are unchanged, and any partial candidate is reset (candidate start
cleared, candidate frame count zeroed), so no candidate accumulates
during the lock window. -/
theorem c6_lock_window_blocks_barge_in (cfg : VLCfg) (s : VLState) (pcm : Frame) (now t : ℚ)
    (ha : vlActive s = true) (hne : pcm ≠ [])
    (hfmt : s.input_format_ready = true) (hack : s.awaiting_commit_ack = false)
    (hen : s.barge_in_enabled = true)
    (hact : s.response_active = true ∨ s.current_burst_active = true)
    (hdyn : s.dynamic_rms_enabled = true)
    (hlen : 2 ≤ (vlSendBytes cfg s pcm).1.length)
    (hab : s.agent_burst_start_ms = some t)
    (hlock : now - t < cfg.vl_barge_in_lock_ms) :
    (sendInputAudioFrame cfg s pcm now).bargeFired = false ∧
    (sendInputAudioFrame cfg s pcm now).state.barge_in_triggered = s.barge_in_triggered ∧
    (sendInputAudioFrame cfg s pcm now).state.response_active = s.response_active ∧
    (sendInputAudioFrame cfg s pcm now).state.current_burst_active = s.current_burst_active ∧
    (sendInputAudioFrame cfg s pcm now).state.seg_queue = s.seg_queue ∧
    (sendInputAudioFrame cfg s pcm now).state.barge_in_candidate_start_ms = none ∧
    (sendInputAudioFrame cfg s pcm now).state.barge_in_frames = 0 := by
  unfold sendInputAudioFrame
  rw [if_neg (by simp [ha, hne]), if_neg (by simp [hfmt]), if_neg (by simp [hack])]
  (try dsimp only)
  rw [decide_eq_true hlen]
  have hobs := vlPreBarge_bargeObs cfg s pcm now
  obtain ⟨v, hv⟩ := vlPreBarge_dyn_some cfg s pcm now hdyn hlen
  have hbl := bargeInStep_lock cfg (vlPreBarge cfg s pcm now)
    (cfg.rmsOf (vlSendBytes cfg s pcm).1) now t
    (hobs.2.2.2.2.2.2.2.2.2.1.trans hen)
    (by rcases hact with hx | hx
        · exact Or.inl (hobs.2.1.trans hx)
        · exact Or.inr (hobs.2.2.1.trans hx))
    (by rw [hv]; simp)
    (hobs.2.2.2.2.2.2.2.2.1.trans hab)
    hlock
  refine ⟨hbl.1, ?_, ?_, ?_, ?_, ?_, ?_⟩
  · exact ((commitEval_bargeObs _ _ _ _).1).trans (hbl.2.2.2.1.trans hobs.1)
  · exact ((commitEval_bargeObs _ _ _ _).2.1).trans (hbl.2.2.2.2.1.trans hobs.2.1)
  · exact ((commitEval_bargeObs _ _ _ _).2.2.1).trans (hbl.2.2.2.2.2.1.trans hobs.2.2.1)
  · exact ((commitEval_bargeObs _ _ _ _).2.2.2.1).trans (hbl.2.2.2.2.2.2.1.trans hobs.2.2.2.1)
  · exact ((commitEval_bargeObs _ _ _ _).2.2.2.2.1).trans hbl.2.2.2.2.2.2.2.1
  · exact ((commitEval_bargeObs _ _ _ _).2.2.2.2.2.1).trans hbl.2.2.2.2.2.2.2.2

theorem c6_witness :
    (sendInputAudioFrame testCfg c6State [1, 2, 3, 4] 1100).bargeFired = false ∧
    (sendInputAudioFrame testCfg c6State [1, 2, 3, 4] 1100).state.barge_in_candidate_start_ms
      = none ∧
    (sendInputAudioFrame testCfg c6State [1, 2, 3, 4] 1100).state.barge_in_frames = 0 := by
  have h := c6_lock_window_blocks_barge_in testCfg c6State [1, 2, 3, 4] 1100 1000
    (by decide) (by decide) rfl rfl rfl (Or.inl rfl) rfl (by decide) rfl
    (by norm_num [testCfg])
  exact ⟨h.1, h.2.2.2.2.2.1, h.2.2.2.2.2.2⟩

/-- C10: a step of the session (an inbound frame or a server event) can
fire a barge-in only from the untriggered state, and firing latches the
flag; while the flag is latched, any step other than a response
completion event (`response.audio.done` / `response.done`) keeps it
latched and fires nothing — so at most one barge-in fires per agent
response burst. -/
theorem c10_at_most_one_barge_per_burst (cfg : VLCfg) (s : VLState) (op : VLOp) :
    (s.barge_in_triggered = true → opIsCompletion op = false →
      opFired cfg s op = false ∧ (opNext cfg s op).barge_in_triggered = true) ∧
    (opFired cfg s op = true →
      s.barge_in_triggered = false ∧ (opNext cfg s op).barge_in_triggered = true) := by
  cases op with
  | frame p n =>
    refine ⟨fun h hcomp => ?_, fun hf => ?_⟩
    · exact ⟨(sendFrame_sticky cfg s p n h).1, (sendFrame_sticky cfg s p n h).2⟩
    · exact ⟨(sendFrame_fired cfg s p n hf).1, (sendFrame_fired cfg s p n hf).2⟩
  | event e n =>
    refine ⟨fun h hcomp => ?_, fun hf => ?_⟩
    · exact ⟨(handleEvent_sticky cfg s e n h hcomp).1, (handleEvent_sticky cfg s e n h hcomp).2⟩
    · exact ⟨(handleEvent_fired cfg s e n hf).1, (handleEvent_fired cfg s e n hf).2⟩

theorem c10_witness :
    c10State.barge_in_triggered = true ∧
    opIsCompletion (VLOp.frame [1, 2] 5) = false ∧
    opFired testCfg c10State (VLOp.frame [1, 2] 5) = false ∧
    (opNext testCfg c10State (VLOp.frame [1, 2] 5)).barge_in_triggered = true := by
  have h := (c10_at_most_one_barge_per_burst testCfg c10State (VLOp.frame [1, 2] 5)).1 rfl rfl
  exact ⟨rfl, rfl, h.1, h.2⟩

end PatientOutreach